import Mathlib

/-!
# Verification of the Berghain-challenge admission policies

Shallow embedding of the three decision policies of the repository
(src/play_game.py, src/scenario_2/play_game.py, src/scenario_3/play_game.py)
and of the driver-loop state update, together with proofs of the spec's
testable properties.

Modelling conventions:
* Python dicts of attributes / counts become association lists with the
  dict-get semantics (first matching key, with a default).
* Python ints become Lean Int; all ratio arithmetic is exact rational
  arithmetic over Rat, matching the spec's stated numeric semantics of
  plain real-number division.
* Each decision function is a pure Lean function mirroring the Python
  control flow; Python blocks in which every path returns are rendered as
  separate definitions chained by the fall-through continuation.
-/

set_option linter.unusedVariables false

/-- A candidate's attribute map: person_attributes.get(name, False). -/
abbrev AttrMap := List (String × Bool)

/-- Dict-get for attribute maps, defaulting to false like dict.get(k, False). -/
def aget (m : AttrMap) (k : String) : Bool :=
  match m with
  | [] => false
  | p :: rest => if p.1 == k then p.2 else aget rest k

/-- The running per-attribute admitted tallies: attribute_counts.get(name, 0). -/
abbrev CountMap := List (String × Int)

/-- Dict-get for count maps, defaulting to 0 like dict.get(k, 0). -/
def cget (m : CountMap) (k : String) : Int :=
  match m with
  | [] => 0
  | p :: rest => if p.1 == k then p.2 else cget rest k

/-- Dict-set for count maps: attribute_counts[k] = v (replace first binding or append). -/
def cset (m : CountMap) (k : String) (v : Int) : CountMap :=
  match m with
  | [] => [(k, v)]
  | p :: rest => if p.1 == k then (k, v) :: rest else p :: cset rest k v

/-- A well-formed constraint entry: a dict with keys 'attribute' and 'minCount'.
    (The field name 'attribute' is a Lean keyword, hence the quoted identifier.) -/
structure Constraint where
  «attribute» : String
  minCount : Int

/-- The constraint-minimum lookup used by every scenario: the loop
    for c in constraints: constraint_mins[c.attribute] = c.minCount,
    followed by constraint_mins.get(name, default); the last matching entry
    wins, and an absent attribute falls back to the default. -/
def cminGet (cs : List Constraint) (name : String) (default : Int) : Int :=
  cs.foldl (fun acc c => if c.«attribute» == name then c.minCount else acc) default

/-- attribute_statistics: only the correlations table is ever read. -/
structure AttributeStatistics where
  correlations : List (String × List (String × Rat)) := []

/-- correlations.get(k1, dict()).get(k2, default). -/
def corrGet (c : List (String × List (String × Rat))) (k1 k2 : String) (default : Rat) : Rat :=
  match (c.find? (fun p => p.1 == k1)).map Prod.snd with
  | none => default
  | some inner => ((inner.find? (fun p => p.1 == k2)).map Prod.snd).getD default

/-- The progress-ratio pattern shared by all scenarios:
    count / min if min > 0 else 1.0. -/
def progressOf (count mn : Int) : Rat :=
  if mn > 0 then (count : Rat) / (mn : Rat) else 1.0

namespace PlayGame
/- Embedding of src/play_game.py (scenario 1: attributes young, well_dressed). -/

def MAX_VENUE_CAPACITY : Int := 1000
def MAX_REJECTIONS : Int := 20000

/-- The decision logic of src/play_game.py lines 141-234, after the capacity
    guard and the constraint-minimum lookup. -/
def decide_core (person_attributes : AttrMap) (attribute_counts : CountMap)
    (admitted_count young_min well_dressed_min : Int) : Bool :=
  let is_young := aget person_attributes "young"
  let is_well_dressed := aget person_attributes "well_dressed"
  -- Get current counts
  let young_count := cget attribute_counts "young"
  let well_dressed_count := cget attribute_counts "well_dressed"
  -- Calculate progress towards constraints
  let young_progress := progressOf young_count young_min
  let well_dressed_progress := progressOf well_dressed_count well_dressed_min
  -- Calculate how full the venue is (0.0 to 1.0)
  let venue_fill := (admitted_count : Rat) / (MAX_VENUE_CAPACITY : Rat)
  -- Strategy 1: Young AND well_dressed - Always accept
  if is_young ∧ is_well_dressed then true
  -- Strategy 2: Not young AND not well_dressed - Reject
  else if ¬ is_young ∧ ¬ is_well_dressed then false
  -- Strategy 3: Not young BUT well_dressed
  else if ¬ is_young ∧ is_well_dressed then
    if well_dressed_count ≥ well_dressed_min then false
    else if venue_fill < 0.6 then true
    else if venue_fill < 0.8 then
      (if well_dressed_progress < 0.9 then true else false)
    else
      (if well_dressed_progress < 0.85 then true else false)
  -- Strategy 4: Young (regardless of well_dressed status)
  else if is_young then
    if young_count ≥ young_min then
      if venue_fill < 0.7 then true
      else if venue_fill < 0.9 then true
      else false
    else if venue_fill < 0.4 then true
    else if venue_fill < 0.7 then
      (if young_progress < 1.1 then true else false)
    else if venue_fill < 0.9 then
      (if young_progress < 1.2 then true else false)
    else
      (if young_progress < 1.3 then true else false)
  else false

/-- should_accept_person of src/play_game.py, lines 109-234. -/
def should_accept_person (person_attributes : AttrMap) (constraints : List Constraint)
    (admitted_count : Int) (attribute_counts : CountMap) (total_admitted : Int)
    (attribute_statistics : Option AttributeStatistics) : Bool :=
  -- If venue is full, reject
  if admitted_count ≥ MAX_VENUE_CAPACITY then false
  else
    -- Get constraint requirements (default 600, last matching entry wins)
    let young_min := cminGet constraints "young" 600
    let well_dressed_min := cminGet constraints "well_dressed" 600
    decide_core person_attributes attribute_counts admitted_count young_min well_dressed_min

/-- A raw constraint entry: a dict in which the 'attribute' or 'minCount'
    key may be missing; reading a missing key raises a KeyError. -/
structure RawConstraint where
  «attribute» : Option String
  minCount : Option Int

/-- The constraint-requirement loop of src/play_game.py lines 145-152 over
    raw entries: c['attribute'] is read for every entry, c['minCount'] only
    when the name matches 'young' or 'well_dressed'; a missing key raises. -/
def getMins : List RawConstraint → Int → Int → Except Unit (Int × Int)
  | [], young_min, well_dressed_min => .ok (young_min, well_dressed_min)
  | ⟨none, _⟩ :: _, _, _ => .error ()
  | ⟨some a, mc⟩ :: rest, young_min, well_dressed_min =>
    if a == "young" then
      match mc with
      | none => .error ()
      | some m => getMins rest m well_dressed_min
    else if a == "well_dressed" then
      match mc with
      | none => .error ()
      | some m => getMins rest young_min m
    else getMins rest young_min well_dressed_min

/-- should_accept_person over raw constraint entries, with the possibility of
    a raised KeyError made explicit in the result type. -/
def should_accept_personE (person_attributes : AttrMap) (constraints : List RawConstraint)
    (admitted_count : Int) (attribute_counts : CountMap) (total_admitted : Int)
    (attribute_statistics : Option AttributeStatistics) : Except Unit Bool :=
  if admitted_count ≥ MAX_VENUE_CAPACITY then .ok false
  else
    match getMins constraints 600 600 with
    | .error e => .error e
    | .ok (young_min, well_dressed_min) =>
      .ok (decide_core person_attributes attribute_counts admitted_count young_min well_dressed_min)

/-- The per-attribute tally update of the driver loop (source lines 327-331):
    for attr, value in attributes.items(), if value then increment. -/
def update_attribute_counts (attribute_counts : CountMap) (attributes : AttrMap) : CountMap :=
  attributes.foldl
    (fun acc p => if p.2 then cset acc p.1 (cget acc p.1 + 1) else acc)
    attribute_counts

/-- One iteration of the driver loop's local bookkeeping (source lines
    304-331): decide, then update the tallies only on acceptance; the
    admitted/rejected counters are then refreshed from the server response. -/
def play_game_step (constraints : List Constraint)
    (attribute_statistics : Option AttributeStatistics)
    (admitted_count rejected_count : Int) (attribute_counts : CountMap)
    (attributes : AttrMap) : Bool × CountMap :=
  let accept := should_accept_person attributes constraints admitted_count attribute_counts
    (admitted_count + rejected_count) attribute_statistics
  let new_counts := if accept then update_attribute_counts attribute_counts attributes
    else attribute_counts
  (accept, new_counts)

end PlayGame

namespace Scenario3
/- Embedding of src/scenario_3/play_game.py (six tracked attributes). -/

def MAX_VENUE_CAPACITY : Int := 1000 + 1
def MAX_REJECTIONS : Int := 20000

-- Tunable parameters (function-local constants in the source)
def VENUE_FILL_CRITICAL : Rat := 0.99
def VENUE_FILL_LATE : Rat := 0.97
def VENUE_FILL_MID : Rat := 0.9
def VENUE_FILL_EARLY : Rat := 0.8
def DEFICIT_VERY_HIGH : Int := 200
def DEFICIT_HIGH : Int := 100
def DEFICIT_MODERATE : Int := 50
def DEFICIT_LOW : Int := 20
def OVER_TARGET_RARE : Rat := 1.2
def OVER_TARGET_COMMON : Rat := 1.1
def DEFAULT_UNDERGROUND_MIN : Int := 500
def DEFAULT_INTERNATIONAL_MIN : Int := 650
def DEFAULT_FASHION_MIN : Int := 550
def DEFAULT_QUEER_MIN : Int := 250
def DEFAULT_VINYL_MIN : Int := 200
def DEFAULT_GERMAN_MIN : Int := 800

/-- The local variables of should_accept_person that the decision depends on
    (attribute flags, constraint minimums, current tallies, admitted count). -/
structure S3Ctx where
  is_underground : Bool
  is_international : Bool
  is_fashion : Bool
  is_queer : Bool
  is_vinyl : Bool
  is_german : Bool
  underground_min : Int
  international_min : Int
  fashion_min : Int
  queer_min : Int
  vinyl_min : Int
  german_min : Int
  underground_count : Int
  international_count : Int
  fashion_count : Int
  queer_count : Int
  vinyl_count : Int
  german_count : Int
  admitted_count : Int

def underground_progress (s : S3Ctx) : Rat := progressOf s.underground_count s.underground_min
def international_progress (s : S3Ctx) : Rat := progressOf s.international_count s.international_min
def fashion_progress (s : S3Ctx) : Rat := progressOf s.fashion_count s.fashion_min
def queer_progress (s : S3Ctx) : Rat := progressOf s.queer_count s.queer_min
def vinyl_progress (s : S3Ctx) : Rat := progressOf s.vinyl_count s.vinyl_min
def german_progress (s : S3Ctx) : Rat := progressOf s.german_count s.german_min

def underground_deficit (s : S3Ctx) : Int := s.underground_min - s.underground_count
def international_deficit (s : S3Ctx) : Int := s.international_min - s.international_count
def fashion_deficit (s : S3Ctx) : Int := s.fashion_min - s.fashion_count
def queer_deficit (s : S3Ctx) : Int := s.queer_min - s.queer_count
def vinyl_deficit (s : S3Ctx) : Int := s.vinyl_min - s.vinyl_count
def german_deficit (s : S3Ctx) : Int := s.german_min - s.german_count

/-- venue_fill_ratio = admitted_count / MAX_VENUE_CAPACITY. -/
def venue_fill (s : S3Ctx) : Rat := (s.admitted_count : Rat) / (MAX_VENUE_CAPACITY : Rat)

/-- Number of attributes the person has that are still under target (STRATEGY 2). -/
def needed_attributes (s : S3Ctx) : Int :=
  (if s.is_underground ∧ s.underground_count < s.underground_min then 1 else 0) +
  (if s.is_international ∧ s.international_count < s.international_min then 1 else 0) +
  (if s.is_fashion ∧ s.fashion_count < s.fashion_min then 1 else 0) +
  (if s.is_queer ∧ s.queer_count < s.queer_min then 1 else 0) +
  (if s.is_vinyl ∧ s.vinyl_count < s.vinyl_min then 1 else 0) +
  (if s.is_german ∧ s.german_count < s.german_min then 1 else 0)

/-- Number of needed attributes with a large deficit; the two rare attributes
    (queer_friendly, vinyl_collector) are always critical when needed. -/
def critical_attributes (s : S3Ctx) : Int :=
  (if s.is_underground ∧ s.underground_count < s.underground_min ∧ underground_deficit s > DEFICIT_MODERATE then 1 else 0) +
  (if s.is_international ∧ s.international_count < s.international_min ∧ international_deficit s > DEFICIT_MODERATE then 1 else 0) +
  (if s.is_fashion ∧ s.fashion_count < s.fashion_min ∧ fashion_deficit s > DEFICIT_MODERATE then 1 else 0) +
  (if s.is_queer ∧ s.queer_count < s.queer_min then 1 else 0) +
  (if s.is_vinyl ∧ s.vinyl_count < s.vinyl_min then 1 else 0) +
  (if s.is_german ∧ s.german_count < s.german_min ∧ german_deficit s > DEFICIT_MODERATE then 1 else 0)

/-- max(underground_deficit, international_deficit, fashion_deficit,
        queer_deficit, vinyl_deficit, german_deficit). -/
def max_deficit (s : S3Ctx) : Int :=
  max (max (max (max (max (underground_deficit s) (international_deficit s))
    (fashion_deficit s)) (queer_deficit s)) (vinyl_deficit s)) (german_deficit s)

/-- STRATEGY 7 (late game) followed by the default reject. -/
def strategy7 (s : S3Ctx) : Bool :=
  if venue_fill s ≥ VENUE_FILL_LATE then
    if max_deficit s > DEFICIT_HIGH ∧ needed_attributes s ≥ 1 then true
    else if (s.is_queer ∧ s.queer_count < s.queer_min) ∨ (s.is_vinyl ∧ s.vinyl_count < s.vinyl_min) then true
    else false
  else false

/-- STRATEGY 6 (accept people with a needed attribute early), falling through
    to STRATEGY 7. -/
def strategy6 (s : S3Ctx) : Bool :=
  if needed_attributes s ≥ 1 then
    if venue_fill s < VENUE_FILL_EARLY then true
    else if venue_fill s < VENUE_FILL_MID ∧ max_deficit s > DEFICIT_MODERATE then true
    else strategy7 s
  else strategy7 s

/-- STRATEGY 5, fashion_forward branch, falling through to STRATEGY 6. -/
def strategy5_fashion (s : S3Ctx) : Bool :=
  if s.is_fashion then
    if s.fashion_count < s.fashion_min then
      if fashion_deficit s > DEFICIT_LOW then true
      else if venue_fill s < VENUE_FILL_MID then true
      else strategy6 s
    else
      if fashion_progress s < OVER_TARGET_COMMON ∧ venue_fill s < VENUE_FILL_LATE then true
      else strategy6 s
  else strategy6 s

/-- STRATEGY 5, underground_veteran branch. -/
def strategy5_underground (s : S3Ctx) : Bool :=
  if s.is_underground then
    if s.underground_count < s.underground_min then
      if underground_deficit s > DEFICIT_LOW then true
      else if venue_fill s < VENUE_FILL_MID then true
      else strategy5_fashion s
    else
      if underground_progress s < OVER_TARGET_COMMON ∧ venue_fill s < VENUE_FILL_LATE then true
      else strategy5_fashion s
  else strategy5_fashion s

/-- STRATEGY 5, international branch (skipped for german speakers). -/
def strategy5_international (s : S3Ctx) : Bool :=
  if s.is_international ∧ ¬ s.is_german then
    if s.international_count < s.international_min then
      if international_deficit s > DEFICIT_LOW then true
      else if venue_fill s < VENUE_FILL_MID then true
      else strategy5_underground s
    else
      if international_progress s < OVER_TARGET_COMMON ∧ venue_fill s < VENUE_FILL_LATE then true
      else strategy5_underground s
  else strategy5_underground s

/-- STRATEGY 5, german_speaker branch (skipped for internationals). -/
def strategy5_german (s : S3Ctx) : Bool :=
  if s.is_german ∧ ¬ s.is_international then
    if s.german_count < s.german_min then
      if german_deficit s > DEFICIT_LOW then true
      else if venue_fill s < VENUE_FILL_MID then true
      else strategy5_international s
    else
      if german_progress s < OVER_TARGET_COMMON ∧ venue_fill s < VENUE_FILL_LATE then true
      else strategy5_international s
  else strategy5_international s

/-- STRATEGY 4: the international + german_speaker combination (every path
    of this block returns). -/
def strategy4 (s : S3Ctx) : Bool :=
  if s.is_international ∧ s.is_german then
    if s.international_count < s.international_min ∨ s.german_count < s.german_min then true
    else if international_progress s < OVER_TARGET_COMMON ∧ german_progress s < OVER_TARGET_COMMON ∧
            venue_fill s < VENUE_FILL_LATE then true
    else false
  else strategy5_german s

/-- STRATEGY 3: liberal handling of the two rare attributes, falling through
    to STRATEGY 4. -/
def strategy3 (s : S3Ctx) : Bool :=
  if s.is_queer ∧ s.queer_count < s.queer_min then true
  else if s.is_queer ∧ queer_progress s < OVER_TARGET_RARE ∧ venue_fill s < VENUE_FILL_LATE then true
  else if s.is_vinyl ∧ s.vinyl_count < s.vinyl_min then true
  else if s.is_vinyl ∧ vinyl_progress s < OVER_TARGET_RARE ∧ venue_fill s < VENUE_FILL_LATE then true
  else strategy4 s

/-- STRATEGY 2: multi-need acceptance, falling through to STRATEGY 3. -/
def strategy2 (s : S3Ctx) : Bool :=
  if needed_attributes s ≥ 3 then true
  else if critical_attributes s ≥ 2 then true
  else strategy3 s

/-- STRATEGY 1: accept rare attributes while below 1.2x their target,
    falling through to STRATEGY 2. -/
def strategy1 (s : S3Ctx) : Bool :=
  if s.is_queer ∧ (s.queer_count : Rat) < (s.queer_min : Rat) * OVER_TARGET_RARE then true
  else if s.is_vinyl ∧ (s.vinyl_count : Rat) < (s.vinyl_min : Rat) * OVER_TARGET_RARE then true
  else strategy2 s

/-- HARD RULES: bootstrap the two rare tallies to 130 before anything else. -/
def hard_rules (s : S3Ctx) : Bool :=
  if s.queer_count < 130 then
    (if s.is_queer then true else false)
  else if s.vinyl_count < 130 then
    (if s.is_vinyl then true else false)
  else strategy1 s

/-- The same context at a different admitted count (used to compare the
    decision across venue-fill phases). -/
def withAdmitted (s : S3Ctx) (a : Int) : S3Ctx := { s with admitted_count := a }

/-- The extraction of attribute flags, constraint minimums and tallies from
    the raw arguments (source lines 198-224). -/
def mkCtx (person_attributes : AttrMap) (constraints : List Constraint)
    (admitted_count : Int) (attribute_counts : CountMap) : S3Ctx := {
  is_underground := aget person_attributes "underground_veteran"
  is_international := aget person_attributes "international"
  is_fashion := aget person_attributes "fashion_forward"
  is_queer := aget person_attributes "queer_friendly"
  is_vinyl := aget person_attributes "vinyl_collector"
  is_german := aget person_attributes "german_speaker"
  underground_min := cminGet constraints "underground_veteran" DEFAULT_UNDERGROUND_MIN
  international_min := cminGet constraints "international" DEFAULT_INTERNATIONAL_MIN
  fashion_min := cminGet constraints "fashion_forward" DEFAULT_FASHION_MIN
  queer_min := cminGet constraints "queer_friendly" DEFAULT_QUEER_MIN
  vinyl_min := cminGet constraints "vinyl_collector" DEFAULT_VINYL_MIN
  german_min := cminGet constraints "german_speaker" DEFAULT_GERMAN_MIN
  underground_count := cget attribute_counts "underground_veteran"
  international_count := cget attribute_counts "international"
  fashion_count := cget attribute_counts "fashion_forward"
  queer_count := cget attribute_counts "queer_friendly"
  vinyl_count := cget attribute_counts "vinyl_collector"
  german_count := cget attribute_counts "german_speaker"
  admitted_count := admitted_count }

/-- should_accept_person of src/scenario_3/play_game.py, lines 117-413. -/
def should_accept_person (person_attributes : AttrMap) (constraints : List Constraint)
    (admitted_count : Int) (attribute_counts : CountMap) (total_admitted : Int)
    (attribute_statistics : Option AttributeStatistics)
    (well_connected_encountered : Int) : Bool :=
  -- If venue is full, reject
  if admitted_count ≥ MAX_VENUE_CAPACITY then false
  else
    -- Extract correlations if available (read but never used by a branch)
    let correlations := match attribute_statistics with
      | some st => st.correlations
      | none => []
    let int_german_corr := corrGet correlations "international" "german_speaker" (-0.717)
    let s : S3Ctx := mkCtx person_attributes constraints admitted_count attribute_counts
    let remaining_capacity := MAX_VENUE_CAPACITY - admitted_count
    hard_rules s

end Scenario3

namespace Scenario2
/- Embedding of src/scenario_2/play_game.py (four tracked attributes). -/

def MAX_VENUE_CAPACITY : Int := 1000 + 1
def MAX_REJECTIONS : Int := 20000

-- Tunable parameters (function-local constants in the source)
def VENUE_FILL_CRITICAL : Rat := 0.99
def VENUE_FILL_LATE : Rat := 0.97
def VENUE_FILL_MID_LATE : Rat := 0.95
def VENUE_FILL_MID : Rat := 0.9
def VENUE_FILL_MID_EARLY : Rat := 0.85
def VENUE_FILL_EARLY : Rat := 0.8
def VENUE_FILL_MODERATE : Rat := 0.75
def VENUE_FILL_LOW : Rat := 0.7
def VENUE_FILL_VERY_LOW : Rat := 0.65
def VENUE_FILL_MINIMAL : Rat := 0.6
def VENUE_FILL_VERY_MINIMAL : Rat := 0.5
def VENUE_FILL_EMPTY : Rat := 0.05
def VENUE_FILL_VERY_EMPTY : Rat := 0.02
def VENUE_FILL_EXTREMELY_EMPTY : Rat := 0.005
def VENUE_FILL_ULTRA_EMPTY : Rat := 0.002
def DEFICIT_VERY_HIGH : Int := 200
def DEFICIT_HIGH : Int := 150
def DEFICIT_MODERATE_HIGH : Int := 100
def DEFICIT_MODERATE : Int := 50
def DEFICIT_LOW : Int := 20
def DEFICIT_VERY_LOW : Int := 15
def DEFICIT_MINIMAL : Int := 10
def DEFICIT_TINY : Int := 8
def DEFICIT_MICRO : Int := 5
def WELL_CONNECTED_SKIP_MODULO : Int := 15
/-- WELL_CONNECTED_CRITICAL_RATIO of the source (renamed here). -/
def WELL_CONNECTED_CRITICAL_SHARE : Rat := 0.10
def MIN_ATTRIBUTES_FOR_STRATEGY_2 : Int := 3
def MIN_NEEDED_ATTRIBUTES : Int := 2
def MIN_CRITICAL_ATTRIBUTES : Int := 2
def OVER_TARGET_HIGH : Rat := 1.1
def OVER_TARGET_MODERATE : Rat := 1.1
def DEFAULT_TECH_BERLIN_CORR : Rat := -0.65
def DEFAULT_WELL_BERLIN_CORR : Rat := 0.57
def DEFAULT_TECH_WELL_CORR : Rat := -0.47
def DEFAULT_TECHNO_MIN : Int := 650
def DEFAULT_WELL_CONNECTED_MIN : Int := 450
def DEFAULT_CREATIVE_MIN : Int := 300
def DEFAULT_BERLIN_LOCAL_MIN : Int := 750

/-- The local variables of should_accept_person that the decision depends on. -/
structure S2Ctx where
  is_techno_lover : Bool
  is_well_connected : Bool
  is_creative : Bool
  is_berlin_local : Bool
  techno_min : Int
  well_connected_min : Int
  creative_min : Int
  berlin_local_min : Int
  techno_count : Int
  well_connected_count : Int
  creative_count : Int
  berlin_local_count : Int
  admitted_count : Int
  well_connected_encountered : Int

def techno_progress (s : S2Ctx) : Rat := progressOf s.techno_count s.techno_min
def well_connected_progress (s : S2Ctx) : Rat := progressOf s.well_connected_count s.well_connected_min
def creative_progress (s : S2Ctx) : Rat := progressOf s.creative_count s.creative_min
def berlin_local_progress (s : S2Ctx) : Rat := progressOf s.berlin_local_count s.berlin_local_min

/-- venue_fill_ratio = admitted_count / MAX_VENUE_CAPACITY. -/
def venue_fill (s : S2Ctx) : Rat := (s.admitted_count : Rat) / (MAX_VENUE_CAPACITY : Rat)

def techno_deficit (s : S2Ctx) : Int := s.techno_min - s.techno_count
def well_connected_deficit (s : S2Ctx) : Int := s.well_connected_min - s.well_connected_count
def creative_deficit (s : S2Ctx) : Int := s.creative_min - s.creative_count
def berlin_deficit (s : S2Ctx) : Int := s.berlin_local_min - s.berlin_local_count

/-- Count how many attributes this person has that we need. -/
def needed_attributes (s : S2Ctx) : Int :=
  (if s.is_techno_lover ∧ s.techno_count < s.techno_min then 1 else 0) +
  (if s.is_well_connected ∧ s.well_connected_count < s.well_connected_min then 1 else 0) +
  (if s.is_creative ∧ s.creative_count < s.creative_min then 1 else 0) +
  (if s.is_berlin_local ∧ s.berlin_local_count < s.berlin_local_min then 1 else 0)

/-- Count total attributes this person has. -/
def total_attributes (s : S2Ctx) : Int :=
  (if s.is_techno_lover then 1 else 0) + (if s.is_well_connected then 1 else 0) +
  (if s.is_creative then 1 else 0) + (if s.is_berlin_local then 1 else 0)

def has_rare_tech_berlin_combo (s : S2Ctx) : Bool := s.is_techno_lover && s.is_berlin_local
def has_well_berlin_combo (s : S2Ctx) : Bool := s.is_well_connected && s.is_berlin_local

def has_needed_creative (s : S2Ctx) : Bool := s.is_creative && decide (s.creative_count < s.creative_min)
def has_needed_berlin (s : S2Ctx) : Bool := s.is_berlin_local && decide (s.berlin_local_count < s.berlin_local_min)
def has_needed_techno (s : S2Ctx) : Bool := s.is_techno_lover && decide (s.techno_count < s.techno_min)

/-- critical_needed = sum([has_needed_creative, has_needed_berlin, has_needed_techno]). -/
def critical_needed (s : S2Ctx) : Int :=
  (if has_needed_creative s then 1 else 0) + (if has_needed_berlin s then 1 else 0) +
  (if has_needed_techno s then 1 else 0)

/-- Strategy 1 body (is_creative; every path of this block returns),
    source lines 302-332. -/
def creativeBlock (s : S2Ctx) : Bool :=
  if s.creative_count < s.creative_min then true
  else if s.creative_count ≥ s.creative_min then
    -- the two nested deficit checks may return True and otherwise fall
    -- through to the final over-target tolerance check
    let accepted_mid : Bool :=
      if s.berlin_local_count < s.berlin_local_min ∨ s.techno_count < s.techno_min then
        if berlin_deficit s > DEFICIT_MODERATE ∨ techno_deficit s > DEFICIT_MODERATE then
          decide (venue_fill s < VENUE_FILL_MID)
        else if berlin_deficit s > DEFICIT_LOW ∨ techno_deficit s > DEFICIT_LOW then
          decide (venue_fill s < VENUE_FILL_MID_EARLY)
        else false
      else false
    if accepted_mid then true
    else if venue_fill s < VENUE_FILL_MID ∧ (s.creative_count : Rat) < (s.creative_min : Rat) * 1.03 then true
    else false
  else false

/-- Strategy 2 body (total_attributes >= 3; every path returns),
    source lines 336-394. -/
def strategy2Block (s : S2Ctx) : Bool :=
  if has_rare_tech_berlin_combo s then
    if s.techno_count < s.techno_min ∨ s.berlin_local_count < s.berlin_local_min then true
    else if venue_fill s < VENUE_FILL_CRITICAL then true
    else false
  else if has_needed_creative s ∨ has_needed_berlin s ∨ has_needed_techno s then
    if venue_fill s < VENUE_FILL_CRITICAL then true
    -- not all_critical_over holds exactly when one of the critical needed
    -- attributes is still below its over-target tolerance
    else if (has_needed_techno s ∧ (s.techno_count : Rat) < (s.techno_min : Rat) * OVER_TARGET_MODERATE) ∨
            (has_needed_berlin s ∧ (s.berlin_local_count : Rat) < (s.berlin_local_min : Rat) * OVER_TARGET_MODERATE) ∨
            (has_needed_creative s ∧ (s.creative_count : Rat) < (s.creative_min : Rat) * OVER_TARGET_MODERATE) then true
    else false
  else if creative_deficit s > DEFICIT_MODERATE then false
  else if s.is_well_connected then
    if s.well_connected_count ≥ s.well_connected_min then false
    else if venue_fill s < VENUE_FILL_VERY_EMPTY then true
    else false
  else if venue_fill s < VENUE_FILL_EMPTY then true
  else false

/-- Strategy 3 body (needed_attributes >= 2; every path returns),
    source lines 398-471. -/
def strategy3Block (s : S2Ctx) : Bool :=
  if has_rare_tech_berlin_combo s ∧ s.techno_count < s.techno_min ∧ s.berlin_local_count < s.berlin_local_min then true
  else if has_rare_tech_berlin_combo s ∧ (s.techno_count < s.techno_min ∨ s.berlin_local_count < s.berlin_local_min) then
    (if venue_fill s < VENUE_FILL_CRITICAL then true else false)
  else if has_well_berlin_combo s ∧ s.berlin_local_count < s.berlin_local_min then
    (if venue_fill s < VENUE_FILL_MID_LATE then true
     else if (s.berlin_local_count : Rat) < (s.berlin_local_min : Rat) * OVER_TARGET_MODERATE then true
     else false)
  else if critical_needed s ≥ MIN_CRITICAL_ATTRIBUTES then
    (if venue_fill s < VENUE_FILL_CRITICAL then true else false)
  else if critical_needed s ≥ 1 then
    (if creative_deficit s > DEFICIT_MODERATE_HIGH then
       (if venue_fill s < VENUE_FILL_LOW then true else false)
     else if creative_deficit s > DEFICIT_MODERATE then
       (if venue_fill s < VENUE_FILL_MID_EARLY then true else false)
     else if venue_fill s < VENUE_FILL_MID_LATE then true
     else if has_needed_techno s ∧ (s.techno_count : Rat) ≥ (s.techno_min : Rat) * OVER_TARGET_MODERATE then false
     else if has_needed_berlin s ∧ (s.berlin_local_count : Rat) ≥ (s.berlin_local_min : Rat) * OVER_TARGET_MODERATE then false
     else if has_needed_creative s ∧ (s.creative_count : Rat) ≥ (s.creative_min : Rat) * OVER_TARGET_MODERATE then false
     else true)
  else if s.is_well_connected ∧ s.well_connected_count ≥ s.well_connected_min then false
  else if venue_fill s < VENUE_FILL_EMPTY then true
  else false

/-- Strategy 4, berlin_local block (every path returns), source lines 484-539. -/
def berlinBlock (s : S2Ctx) : Bool :=
  if s.berlin_local_count < s.berlin_local_min then
    if creative_deficit s > DEFICIT_MODERATE_HIGH then
      (if venue_fill s < VENUE_FILL_VERY_LOW then true else false)
    else if creative_deficit s > DEFICIT_MODERATE then
      (if venue_fill s < VENUE_FILL_LOW then true else false)
    else if creative_deficit s > DEFICIT_LOW then
      (if venue_fill s < VENUE_FILL_MODERATE then true else false)
    else if creative_deficit s > DEFICIT_MINIMAL then
      (if venue_fill s < VENUE_FILL_MID_EARLY then true else false)
    else if venue_fill s < VENUE_FILL_MID then true
    else false
  else if s.berlin_local_count ≥ s.berlin_local_min then
    let accepted_mid : Bool :=
      if s.creative_count < s.creative_min ∨ s.techno_count < s.techno_min then
        if creative_deficit s > DEFICIT_MODERATE ∨ techno_deficit s > DEFICIT_MODERATE then
          decide (venue_fill s < VENUE_FILL_MID)
        else if creative_deficit s > DEFICIT_LOW ∨ techno_deficit s > DEFICIT_LOW then
          decide (venue_fill s < VENUE_FILL_MID_EARLY)
        else false
      else false
    if accepted_mid then true
    else if venue_fill s < VENUE_FILL_MID ∧ (s.berlin_local_count : Rat) < (s.berlin_local_min : Rat) * 1.03 then true
    else false
  else false

/-- Strategy 4, techno_lover block (every path returns), source lines 546-589. -/
def technoBlock (s : S2Ctx) : Bool :=
  if s.techno_count < s.techno_min then
    if berlin_deficit s > DEFICIT_VERY_HIGH then
      (if venue_fill s < VENUE_FILL_MINIMAL then true else false)
    else if creative_deficit s > DEFICIT_MODERATE_HIGH then
      (if venue_fill s < VENUE_FILL_VERY_MINIMAL then true else false)
    else if creative_deficit s > DEFICIT_MODERATE then
      (if venue_fill s < VENUE_FILL_VERY_LOW then true else false)
    else if berlin_deficit s > DEFICIT_HIGH then
      (if venue_fill s < VENUE_FILL_MODERATE then true else false)
    else if venue_fill s < VENUE_FILL_MID_EARLY then true
    else false
  else
    if creative_deficit s < DEFICIT_MODERATE ∧ berlin_deficit s < DEFICIT_MODERATE_HIGH ∧
       venue_fill s < VENUE_FILL_MID then true
    else false

/-- The final well_connected logic (section starting at source line 724);
    reached by falling through the skip strategy. -/
def wcFinal (s : S2Ctx) : Bool :=
  if s.well_connected_count < s.well_connected_min then
    if s.creative_count < s.creative_min ∧
       (creative_progress s < 0.85 ∨ venue_fill s ≥ VENUE_FILL_VERY_MINIMAL) then false
    else if creative_deficit s > DEFICIT_MINIMAL then false
    else if (s.well_connected_count : Rat) ≥ (s.well_connected_min : Rat) * 0.9 then
      (if berlin_deficit s > DEFICIT_MODERATE_HIGH ∧ venue_fill s < VENUE_FILL_MID then true else false)
    else if berlin_deficit s > DEFICIT_MODERATE_HIGH then
      (if venue_fill s < VENUE_FILL_MID_EARLY then true else false)
    else if creative_deficit s < DEFICIT_MINIMAL ∧ berlin_deficit s < DEFICIT_LOW ∧
            techno_deficit s < DEFICIT_VERY_LOW ∧ venue_fill s < VENUE_FILL_EARLY then true
    else false
  else if s.well_connected_count ≥ s.well_connected_min then
    if s.is_berlin_local ∧ s.berlin_local_count < s.berlin_local_min then
      if creative_deficit s > DEFICIT_MINIMAL then false
      else if (s.well_connected_count : Rat) < (s.well_connected_min : Rat) * 1.03 ∧
              venue_fill s < VENUE_FILL_MID then true
      else false
    else false
  else false

/-- Body of the every-Nth well_connected branch (source lines 651-697);
    a pass statement falls through to wcFinal. -/
def wcModuloBranch (s : S2Ctx) : Bool :=
  if s.well_connected_count < s.well_connected_min then
    if s.creative_count < s.creative_min ∧
       ¬ (venue_fill s < VENUE_FILL_VERY_MINIMAL ∧ creative_progress s ≥ 0.85) then false
    else if creative_deficit s > DEFICIT_MINIMAL then false
    else if (s.well_connected_count : Rat) ≥ (s.well_connected_min : Rat) * 0.9 then
      (if venue_fill s < VENUE_FILL_MID_EARLY then true else false)
    else wcFinal s
  else if berlin_deficit s > DEFICIT_MODERATE_HIGH ∧ venue_fill s < VENUE_FILL_MID then
    if creative_deficit s > DEFICIT_MINIMAL then false
    else if s.creative_count < s.creative_min ∧ creative_progress s < 0.85 then false
    else if s.creative_count < s.creative_min ∧ venue_fill s ≥ VENUE_FILL_VERY_MINIMAL then false
    else true
  else false

/-- Body of the skipped well_connected branch (source lines 698-719);
    a pass statement falls through to wcFinal. -/
def wcSkipBranch (s : S2Ctx) : Bool :=
  if (s.well_connected_count : Rat) < (s.well_connected_min : Rat) * WELL_CONNECTED_CRITICAL_SHARE then
    if creative_deficit s > DEFICIT_MINIMAL then false
    else if s.creative_count < s.creative_min ∧ creative_progress s < 0.85 then false
    else if s.creative_count < s.creative_min ∧ venue_fill s ≥ VENUE_FILL_VERY_MINIMAL then false
    else wcFinal s
  else false

/-- The well_connected block (every path returns), source lines 596-779. -/
def wcBlock (s : S2Ctx) : Bool :=
  -- early-game creative accumulation guard (lines 600-621)
  if s.creative_count < s.creative_min ∧
     ¬ ((s.well_connected_count : Rat) < (s.well_connected_min : Rat) * 0.1 ∧
        venue_fill s < VENUE_FILL_VERY_MINIMAL ∧ creative_progress s ≥ 0.8) then false
  -- early rejection when already over target (lines 625-642)
  else if s.well_connected_count ≥ s.well_connected_min then
    if s.is_berlin_local ∧ s.berlin_local_count < s.berlin_local_min then
      if creative_deficit s > DEFICIT_MINIMAL then false
      else if (s.well_connected_count : Rat) < (s.well_connected_min : Rat) * 1.03 ∧
              venue_fill s < VENUE_FILL_MID then true
      else false
    else false
  -- skip-every-Nth strategy (lines 647-719), then the final logic
  else if s.well_connected_encountered > 0 ∧ s.well_connected_encountered % WELL_CONNECTED_SKIP_MODULO = 0 then
    wcModuloBranch s
  else if s.well_connected_encountered > 0 then
    wcSkipBranch s
  else wcFinal s

/-- Strategy 5 body (needed_attributes == 0; every path returns),
    source lines 785-808. -/
def noNeedBlock (s : S2Ctx) : Bool :=
  if creative_deficit s > DEFICIT_MODERATE then false
  else if creative_deficit s > DEFICIT_LOW then
    (if venue_fill s < VENUE_FILL_ULTRA_EMPTY then true else false)
  else if venue_fill s < VENUE_FILL_EXTREMELY_EMPTY then true
  else false

/-- The extraction of attribute flags, constraint minimums and tallies from
    the raw arguments (source lines 224-243). -/
def mkCtx (person_attributes : AttrMap) (constraints : List Constraint)
    (admitted_count : Int) (attribute_counts : CountMap)
    (well_connected_encountered : Int) : S2Ctx := {
  is_techno_lover := aget person_attributes "techno_lover"
  is_well_connected := aget person_attributes "well_connected"
  is_creative := aget person_attributes "creative"
  is_berlin_local := aget person_attributes "berlin_local"
  techno_min := cminGet constraints "techno_lover" DEFAULT_TECHNO_MIN
  well_connected_min := cminGet constraints "well_connected" DEFAULT_WELL_CONNECTED_MIN
  creative_min := cminGet constraints "creative" DEFAULT_CREATIVE_MIN
  berlin_local_min := cminGet constraints "berlin_local" DEFAULT_BERLIN_LOCAL_MIN
  techno_count := cget attribute_counts "techno_lover"
  well_connected_count := cget attribute_counts "well_connected"
  creative_count := cget attribute_counts "creative"
  berlin_local_count := cget attribute_counts "berlin_local"
  admitted_count := admitted_count
  well_connected_encountered := well_connected_encountered }

/-- The chain of fully-returning strategy blocks after the capacity guard. -/
def core (s : S2Ctx) : Bool :=
  if s.is_creative then creativeBlock s
  else if total_attributes s ≥ MIN_ATTRIBUTES_FOR_STRATEGY_2 then strategy2Block s
  else if needed_attributes s ≥ MIN_NEEDED_ATTRIBUTES then strategy3Block s
  else if s.is_berlin_local then berlinBlock s
  else if s.is_techno_lover then technoBlock s
  else if s.is_well_connected then wcBlock s
  else if needed_attributes s = 0 then noNeedBlock s
  else false

/-- should_accept_person of src/scenario_2/play_game.py, lines 116-811. -/
def should_accept_person (person_attributes : AttrMap) (constraints : List Constraint)
    (admitted_count : Int) (attribute_counts : CountMap) (total_admitted : Int)
    (attribute_statistics : Option AttributeStatistics)
    (well_connected_encountered : Int) : Bool :=
  -- If venue is full, reject
  if admitted_count ≥ MAX_VENUE_CAPACITY then false
  else
    -- Extract correlation information if available (read but never used)
    let correlations := match attribute_statistics with
      | some st => st.correlations
      | none => []
    let tech_berlin_corr := corrGet correlations "techno_lover" "berlin_local" DEFAULT_TECH_BERLIN_CORR
    let well_berlin_corr := corrGet correlations "well_connected" "berlin_local" DEFAULT_WELL_BERLIN_CORR
    let tech_well_corr := corrGet correlations "techno_lover" "well_connected" DEFAULT_TECH_WELL_CORR
    let s : S2Ctx := mkCtx person_attributes constraints admitted_count attribute_counts
      well_connected_encountered
    let remaining_capacity := MAX_VENUE_CAPACITY - admitted_count
    core s

/-- The constraint_mins dict build of src/scenario_2/play_game.py lines
    230-232 over raw entries: c['attribute'] and c['minCount'] are both read
    for every entry, so a missing key raises a KeyError regardless of the
    attribute name; insertion order is kept so that a later duplicate name
    overwrites an earlier one, as with the dict. -/
def constraint_minsE : List PlayGame.RawConstraint → Except Unit (List Constraint)
  | [] => .ok []
  | ⟨none, _⟩ :: _ => .error ()
  | ⟨some _, none⟩ :: _ => .error ()
  | ⟨some a, some m⟩ :: rest =>
    (constraint_minsE rest).map (fun cs => ⟨a, m⟩ :: cs)

/-- should_accept_person of scenario 2 over raw constraint entries, with the
    possibility of a raised KeyError made explicit in the result type; the
    capacity guard (source lines 220-221) precedes the constraint loop. -/
def should_accept_personE (person_attributes : AttrMap)
    (constraints : List PlayGame.RawConstraint) (admitted_count : Int)
    (attribute_counts : CountMap) (total_admitted : Int)
    (attribute_statistics : Option AttributeStatistics)
    (well_connected_encountered : Int) : Except Unit Bool :=
  if admitted_count ≥ MAX_VENUE_CAPACITY then .ok false
  else
    match constraint_minsE constraints with
    | .error e => .error e
    | .ok cs =>
      .ok (core (mkCtx person_attributes cs admitted_count attribute_counts
        well_connected_encountered))

end Scenario2

/-! ## Shared reduction lemmas -/

/-- Below capacity, the root decision reduces to its core at the looked-up
    constraint minimums. -/
theorem s1_decide_eq (pa : AttrMap) (cs : List Constraint) (a : Int) (counts : CountMap)
    (t : Int) (stats : Option AttributeStatistics)
    (ha : ¬ a ≥ PlayGame.MAX_VENUE_CAPACITY) :
    PlayGame.should_accept_person pa cs a counts t stats =
      PlayGame.decide_core pa counts a (cminGet cs "young" 600) (cminGet cs "well_dressed" 600) := by
  unfold PlayGame.should_accept_person
  rw [if_neg ha]

/-- Below capacity, the scenario-2 decision reduces to the strategy chain on
    the extracted context. -/
theorem s2_decide_eq (pa : AttrMap) (cs : List Constraint) (a : Int) (counts : CountMap)
    (t : Int) (stats : Option AttributeStatistics) (e : Int)
    (ha : ¬ a ≥ Scenario2.MAX_VENUE_CAPACITY) :
    Scenario2.should_accept_person pa cs a counts t stats e =
      Scenario2.core (Scenario2.mkCtx pa cs a counts e) := by
  unfold Scenario2.should_accept_person
  rw [if_neg ha]

/-- Below capacity, the scenario-3 decision reduces to the hard rules on the
    extracted context. -/
theorem s3_decide_eq (pa : AttrMap) (cs : List Constraint) (a : Int) (counts : CountMap)
    (t : Int) (stats : Option AttributeStatistics) (e : Int)
    (ha : ¬ a ≥ Scenario3.MAX_VENUE_CAPACITY) :
    Scenario3.should_accept_person pa cs a counts t stats e =
      Scenario3.hard_rules (Scenario3.mkCtx pa cs a counts) := by
  unfold Scenario3.should_accept_person
  rw [if_neg ha]

/-- When the queer tally is below 130 the hard rules decide by the
    queer_friendly flag alone. -/
theorem s3_hard_rules_queer (s : Scenario3.S3Ctx) (hq : s.queer_count < 130) :
    Scenario3.hard_rules s = s.is_queer := by
  unfold Scenario3.hard_rules
  rw [if_pos hq]
  cases h : s.is_queer <;> simp [h]

/-- When the queer tally is at least 130 but the vinyl tally is below 130 the
    hard rules decide by the vinyl_collector flag alone. -/
theorem s3_hard_rules_vinyl (s : Scenario3.S3Ctx) (hq : ¬ s.queer_count < 130)
    (hv : s.vinyl_count < 130) : Scenario3.hard_rules s = s.is_vinyl := by
  unfold Scenario3.hard_rules
  rw [if_neg hq, if_pos hv]
  cases h : s.is_vinyl <;> simp [h]

/-! ## C1: capacity guard -/

/-- C1: in every scenario, a running state whose admitted count has reached
    the module's capacity constant (MAX_VENUE_CAPACITY) is rejected before
    any other rule, for every candidate, constraint list and statistics
    value. -/
theorem c1_capacity_guard :
    (∀ (pa : AttrMap) (cs : List Constraint) (a : Int) (counts : CountMap) (t : Int)
       (stats : Option AttributeStatistics), a ≥ PlayGame.MAX_VENUE_CAPACITY →
       PlayGame.should_accept_person pa cs a counts t stats = false) ∧
    (∀ (pa : AttrMap) (cs : List Constraint) (a : Int) (counts : CountMap) (t : Int)
       (stats : Option AttributeStatistics) (e : Int), a ≥ Scenario2.MAX_VENUE_CAPACITY →
       Scenario2.should_accept_person pa cs a counts t stats e = false) ∧
    (∀ (pa : AttrMap) (cs : List Constraint) (a : Int) (counts : CountMap) (t : Int)
       (stats : Option AttributeStatistics) (e : Int), a ≥ Scenario3.MAX_VENUE_CAPACITY →
       Scenario3.should_accept_person pa cs a counts t stats e = false) := by
  refine ⟨?_, ?_, ?_⟩
  · intro pa cs a counts t stats h
    unfold PlayGame.should_accept_person
    rw [if_pos h]
  · intro pa cs a counts t stats e h
    unfold Scenario2.should_accept_person
    rw [if_pos h]
  · intro pa cs a counts t stats e h
    unfold Scenario3.should_accept_person
    rw [if_pos h]

/-- C1 witness: the guard fires at the concrete capacities. -/
theorem c1_capacity_guard_witness :
    PlayGame.should_accept_person [("young", true)] [] 1000 [] 0 none = false ∧
    Scenario2.should_accept_person [("creative", true)] [] 1001 [] 0 none 0 = false ∧
    Scenario3.should_accept_person [("queer_friendly", true)] [] 1001 [] 0 none 0 = false :=
  ⟨c1_capacity_guard.1 _ _ _ _ _ _ (by norm_num [PlayGame.MAX_VENUE_CAPACITY]),
   c1_capacity_guard.2.1 _ _ _ _ _ _ _ (by norm_num [Scenario2.MAX_VENUE_CAPACITY]),
   c1_capacity_guard.2.2 _ _ _ _ _ _ _ (by norm_num [Scenario3.MAX_VENUE_CAPACITY])⟩

/-- C1 counterexample: in scenarios 2 and 3 the capacity constant is
    1000 + 1, not the claimed default 1000: at admitted = 1000 a creative
    candidate is still accepted by scenario 2. -/
theorem c1_counterexample :
    (1000 : Int) ≥ 1000 ∧
    Scenario2.should_accept_person [("creative", true)] [] 1000 [] 0 none 0 = true := by
  constructor
  · norm_num
  · with_unfolding_all decide

/-! ## C2: the decision's actual inputs -/

/-- C2 (amended): the scenario-2 decision is a deterministic pure function of
    its seven actual parameters: the four declared inputs (candidate
    attributes, constraints, running state, statistics) plus the
    well_connected_encountered counter threaded in by the driver. -/
theorem c2_seven_input_determinism :
    ∀ (pa pa' : AttrMap) (cs cs' : List Constraint) (a a' : Int)
      (counts counts' : CountMap) (t t' : Int)
      (stats stats' : Option AttributeStatistics) (e e' : Int),
      pa = pa' → cs = cs' → a = a' → counts = counts' → t = t' → stats = stats' → e = e' →
      Scenario2.should_accept_person pa cs a counts t stats e =
        Scenario2.should_accept_person pa' cs' a' counts' t' stats' e' := by
  intro pa pa' cs cs' a a' counts counts' t t' stats stats' e e' h1 h2 h3 h4 h5 h6 h7
  subst h1; subst h2; subst h3; subst h4; subst h5; subst h6; subst h7; rfl

/-- C2 witness. -/
theorem c2_seven_input_determinism_witness :
    Scenario2.should_accept_person [("well_connected", true)] [] 400
        [("creative", 300), ("well_connected", 100)] 0 none 15 =
      Scenario2.should_accept_person [("well_connected", true)] [] 400
        [("creative", 300), ("well_connected", 100)] 0 none 15 :=
  c2_seven_input_determinism _ _ _ _ _ _ _ _ _ _ _ _ _ _ rfl rfl rfl rfl rfl rfl rfl

/-- C2 counterexample: two calls with identical candidate attributes,
    constraints, running state and statistics, differing only in the
    well_connected_encountered counter, return different decisions, so the
    decision is not a function of the four declared inputs alone. -/
theorem c2_counterexample :
    Scenario2.should_accept_person [("well_connected", true)] [] 400
        [("creative", 300), ("well_connected", 100)] 0 none 15 = true ∧
    Scenario2.should_accept_person [("well_connected", true)] [] 400
        [("creative", 300), ("well_connected", 100)] 0 none 1 = false := by
  constructor <;> with_unfolding_all decide

/-! ## C6: statistics never change a decision -/

/-- C6: each decision function returns a boolean for statistics-absent input
    (the embedding is total), and supplying any statistics value yields
    exactly the decision of the statistics-absent call: the correlation
    tables are read into local values that no branch consults. -/
theorem c6_stats_invariance :
    ∀ (pa : AttrMap) (cs : List Constraint) (a : Int) (counts : CountMap) (t : Int)
      (stats : AttributeStatistics) (e : Int),
      PlayGame.should_accept_person pa cs a counts t (some stats) =
        PlayGame.should_accept_person pa cs a counts t none ∧
      Scenario2.should_accept_person pa cs a counts t (some stats) e =
        Scenario2.should_accept_person pa cs a counts t none e ∧
      Scenario3.should_accept_person pa cs a counts t (some stats) e =
        Scenario3.should_accept_person pa cs a counts t none e :=
  fun _ _ _ _ _ _ _ => ⟨rfl, rfl, rfl⟩

/-! ## C9: numeric semantics of the ratios -/

/-- C9: for a zero (or negative) constraint target the progress ratio is
    defined to be 1.0 without dividing, a positive target divides normally,
    and every venue-fill-ratio denominator (each scenario's capacity
    constant) is positive, so no division by zero occurs. -/
theorem c9_zero_target_progress :
    (∀ c : Int, progressOf c 0 = 1.0) ∧
    (∀ c m : Int, m ≤ 0 → progressOf c m = 1.0) ∧
    (∀ c m : Int, 0 < m → progressOf c m = (c : Rat) / (m : Rat)) ∧
    (0 : Int) < PlayGame.MAX_VENUE_CAPACITY ∧
    (0 : Int) < Scenario2.MAX_VENUE_CAPACITY ∧
    (0 : Int) < Scenario3.MAX_VENUE_CAPACITY := by
  refine ⟨fun c => ?_, fun c m hm => ?_, fun c m hm => ?_, ?_, ?_, ?_⟩
  · unfold progressOf; rw [if_neg (by omega)]
  · unfold progressOf; rw [if_neg (by omega)]
  · unfold progressOf; rw [if_pos hm]
  · norm_num [PlayGame.MAX_VENUE_CAPACITY]
  · norm_num [Scenario2.MAX_VENUE_CAPACITY]
  · norm_num [Scenario3.MAX_VENUE_CAPACITY]

/-- C9 witness. -/
theorem c9_zero_target_progress_witness :
    progressOf 7 0 = 1.0 ∧ progressOf 3 4 = (3 : Rat) / (4 : Rat) :=
  ⟨c9_zero_target_progress.1 7, c9_zero_target_progress.2.2.1 3 4 (by norm_num)⟩

/-! ## C10: the scenario-3 hard rules -/

/-- C10: in scenario 3, below capacity, while the queer_friendly tally is
    below 130 the decision equals the candidate's queer_friendly flag, and
    once it reaches 130 while the vinyl_collector tally is below 130 the
    decision equals the vinyl_collector flag; nothing else is consulted. -/
theorem c10_hard_rules :
    ∀ (pa : AttrMap) (cs : List Constraint) (a : Int) (counts : CountMap) (t : Int)
      (stats : Option AttributeStatistics) (e : Int), a < Scenario3.MAX_VENUE_CAPACITY →
      (cget counts "queer_friendly" < 130 →
        Scenario3.should_accept_person pa cs a counts t stats e = aget pa "queer_friendly") ∧
      (¬ cget counts "queer_friendly" < 130 → cget counts "vinyl_collector" < 130 →
        Scenario3.should_accept_person pa cs a counts t stats e = aget pa "vinyl_collector") := by
  intro pa cs a counts t stats e ha
  rw [s3_decide_eq pa cs a counts t stats e (not_le.mpr ha)]
  exact ⟨fun hq => s3_hard_rules_queer _ hq, fun hq hv => s3_hard_rules_vinyl _ hq hv⟩

/-- C10 witness. -/
theorem c10_hard_rules_witness :
    Scenario3.should_accept_person [("queer_friendly", true)] [] 500 [] 0 none 0 =
        aget [("queer_friendly", true)] "queer_friendly" ∧
    Scenario3.should_accept_person [("fashion_forward", true)] [] 500
        [("queer_friendly", 130)] 0 none 0 = aget [("fashion_forward", true)] "vinyl_collector" :=
  ⟨(c10_hard_rules _ _ _ _ _ _ _ (by norm_num [Scenario3.MAX_VENUE_CAPACITY])).1
      (by with_unfolding_all decide),
   (c10_hard_rules _ _ _ _ _ _ _ (by norm_num [Scenario3.MAX_VENUE_CAPACITY])).2
      (by with_unfolding_all decide) (by with_unfolding_all decide)⟩

/-! ## C3: rarity rule -/

/-- Scenario 2, Strategy 1: a creative candidate below the creative target is
    accepted by the first strategy. -/
theorem s2_creative_accept (s : Scenario2.S2Ctx) (hc : s.is_creative = true)
    (hlt : s.creative_count < s.creative_min) : Scenario2.core s = true := by
  unfold Scenario2.core
  rw [if_pos hc]
  unfold Scenario2.creativeBlock
  rw [if_pos hlt]

/-- Scenario 3: once both hard-rule tallies are at 130, a queer_friendly
    candidate below the queer target is accepted by Strategy 1. -/
theorem s3_rare_queer_accept (s : Scenario3.S3Ctx) (hq : ¬ s.queer_count < 130)
    (hv : ¬ s.vinyl_count < 130) (hflag : s.is_queer = true)
    (hlt : s.queer_count < s.queer_min) : Scenario3.hard_rules s = true := by
  unfold Scenario3.hard_rules
  rw [if_neg hq, if_neg hv]
  unfold Scenario3.strategy1
  have harith : (s.queer_count : Rat) < (s.queer_min : Rat) * Scenario3.OVER_TARGET_RARE := by
    have h1 : (s.queer_count : Rat) < (s.queer_min : Rat) := by exact_mod_cast hlt
    have h0 : (0 : Rat) ≤ (s.queer_min : Rat) := by
      exact_mod_cast (by omega : (0 : Int) ≤ s.queer_min)
    unfold Scenario3.OVER_TARGET_RARE
    nlinarith
  rw [if_pos ⟨hflag, harith⟩]

/-- Scenario 3: once both hard-rule tallies are at 130, a vinyl_collector
    candidate below the vinyl target is accepted by Strategy 1. -/
theorem s3_rare_vinyl_accept (s : Scenario3.S3Ctx) (hq : ¬ s.queer_count < 130)
    (hv : ¬ s.vinyl_count < 130) (hflag : s.is_vinyl = true)
    (hlt : s.vinyl_count < s.vinyl_min) : Scenario3.hard_rules s = true := by
  unfold Scenario3.hard_rules
  rw [if_neg hq, if_neg hv]
  unfold Scenario3.strategy1
  have harith : (s.vinyl_count : Rat) < (s.vinyl_min : Rat) * Scenario3.OVER_TARGET_RARE := by
    have h1 : (s.vinyl_count : Rat) < (s.vinyl_min : Rat) := by exact_mod_cast hlt
    have h0 : (0 : Rat) ≤ (s.vinyl_min : Rat) := by
      exact_mod_cast (by omega : (0 : Int) ≤ s.vinyl_min)
    unfold Scenario3.OVER_TARGET_RARE
    nlinarith
  by_cases h1 : (s.is_queer = true ∧ (s.queer_count : Rat) < (s.queer_min : Rat) * Scenario3.OVER_TARGET_RARE)
  · rw [if_pos h1]
  · rw [if_neg h1, if_pos ⟨hflag, harith⟩]

/-- C3 (amended): below capacity, the rare-attribute rules fire as claimed
    except during scenario 3's hard-rule bootstrap: a creative candidate
    below target is always accepted in scenario 2, and in scenario 3 a
    queer_friendly / vinyl_collector candidate below its target is accepted
    whenever both hard-rule tallies have reached 130, regardless of fill
    ratio and of all other attributes. -/
theorem c3_rare_accept :
    (∀ (pa : AttrMap) (cs : List Constraint) (a : Int) (counts : CountMap) (t : Int)
       (stats : Option AttributeStatistics) (e : Int), a < Scenario2.MAX_VENUE_CAPACITY →
       aget pa "creative" = true →
       cget counts "creative" < cminGet cs "creative" Scenario2.DEFAULT_CREATIVE_MIN →
       Scenario2.should_accept_person pa cs a counts t stats e = true) ∧
    (∀ (pa : AttrMap) (cs : List Constraint) (a : Int) (counts : CountMap) (t : Int)
       (stats : Option AttributeStatistics) (e : Int), a < Scenario3.MAX_VENUE_CAPACITY →
       ¬ cget counts "queer_friendly" < 130 → ¬ cget counts "vinyl_collector" < 130 →
       aget pa "queer_friendly" = true →
       cget counts "queer_friendly" < cminGet cs "queer_friendly" Scenario3.DEFAULT_QUEER_MIN →
       Scenario3.should_accept_person pa cs a counts t stats e = true) ∧
    (∀ (pa : AttrMap) (cs : List Constraint) (a : Int) (counts : CountMap) (t : Int)
       (stats : Option AttributeStatistics) (e : Int), a < Scenario3.MAX_VENUE_CAPACITY →
       ¬ cget counts "queer_friendly" < 130 → ¬ cget counts "vinyl_collector" < 130 →
       aget pa "vinyl_collector" = true →
       cget counts "vinyl_collector" < cminGet cs "vinyl_collector" Scenario3.DEFAULT_VINYL_MIN →
       Scenario3.should_accept_person pa cs a counts t stats e = true) := by
  refine ⟨?_, ?_, ?_⟩
  · intro pa cs a counts t stats e ha hflag hlt
    rw [s2_decide_eq pa cs a counts t stats e (not_le.mpr ha)]
    exact s2_creative_accept _ hflag hlt
  · intro pa cs a counts t stats e ha hq hv hflag hlt
    rw [s3_decide_eq pa cs a counts t stats e (not_le.mpr ha)]
    exact s3_rare_queer_accept _ hq hv hflag hlt
  · intro pa cs a counts t stats e ha hq hv hflag hlt
    rw [s3_decide_eq pa cs a counts t stats e (not_le.mpr ha)]
    exact s3_rare_vinyl_accept _ hq hv hflag hlt

/-- C3 witness. -/
theorem c3_rare_accept_witness :
    Scenario2.should_accept_person [("creative", true)] [] 900 [] 0 none 0 = true ∧
    Scenario3.should_accept_person [("queer_friendly", true)] [] 900
        [("queer_friendly", 130), ("vinyl_collector", 130)] 0 none 0 = true ∧
    Scenario3.should_accept_person [("vinyl_collector", true)] [] 900
        [("queer_friendly", 130), ("vinyl_collector", 130)] 0 none 0 = true :=
  ⟨c3_rare_accept.1 _ _ _ _ _ _ _ (by norm_num [Scenario2.MAX_VENUE_CAPACITY])
      (by with_unfolding_all decide) (by with_unfolding_all decide),
   c3_rare_accept.2.1 _ _ _ _ _ _ _ (by norm_num [Scenario3.MAX_VENUE_CAPACITY])
      (by with_unfolding_all decide) (by with_unfolding_all decide)
      (by with_unfolding_all decide) (by with_unfolding_all decide),
   c3_rare_accept.2.2 _ _ _ _ _ _ _ (by norm_num [Scenario3.MAX_VENUE_CAPACITY])
      (by with_unfolding_all decide) (by with_unfolding_all decide)
      (by with_unfolding_all decide) (by with_unfolding_all decide)⟩

/-- C3 counterexample: in scenario 3 a vinyl_collector candidate below its
    target (tally 0 < 200) is rejected while the queer_friendly tally is
    still below 130, so the rarity rule is not unconditional. -/
theorem c3_counterexample :
    aget [("vinyl_collector", true)] "vinyl_collector" = true ∧
    cget [] "vinyl_collector" < cminGet [] "vinyl_collector" Scenario3.DEFAULT_VINYL_MIN ∧
    (0 : Int) < Scenario3.MAX_VENUE_CAPACITY ∧
    Scenario3.should_accept_person [("vinyl_collector", true)] [] 0 [] 0 none 0 = false := by
  with_unfolding_all decide

/-! ## C4: multi-need rule -/

/-- From a sum of four indicator terms at least 3, with the third indicator
    known false, all other three conditions hold. -/
theorem ite_sum_ge_three {a b c d : Prop} [Decidable a] [Decidable b] [Decidable c] [Decidable d]
    (h : (if a then (1 : Int) else 0) + (if b then 1 else 0) + (if c then 1 else 0) +
      (if d then 1 else 0) ≥ 3) (hc : ¬ c) : a ∧ b ∧ d := by
  split_ifs at h <;> tauto

/-- From a sum of three indicator terms at least 2, with the first indicator
    known false, the other two conditions hold. -/
theorem ite_sum3_ge_two {a b c : Prop} [Decidable a] [Decidable b] [Decidable c]
    (h : (if a then (1 : Int) else 0) + (if b then 1 else 0) + (if c then 1 else 0) ≥ 2)
    (ha : ¬ a) : b ∧ c := by
  split_ifs at h <;> tauto

/-- Scenario 2: a candidate that is not creative but has both techno_lover and
    berlin_local needed is accepted by Strategy 2 or Strategy 3. -/
theorem s2_multi_need_accept_ctx (s : Scenario2.S2Ctx)
    (hcre : s.is_creative = false ∨ s.creative_count < s.creative_min)
    (h : Scenario2.needed_attributes s ≥ 3 ∨ Scenario2.critical_needed s ≥ 2) :
    Scenario2.core s = true := by
  by_cases hc : s.is_creative = true
  · have hlt : s.creative_count < s.creative_min := by
      rcases hcre with h0 | h0
      · rw [hc] at h0; cases h0
      · exact h0
    exact s2_creative_accept s hc hlt
  · have hcf : s.is_creative = false := by revert hc; cases s.is_creative <;> simp
    have hnc : ¬ (s.is_creative = true ∧ s.creative_count < s.creative_min) := by
      simp [hcf]
    have ht : (s.is_techno_lover = true ∧ s.techno_count < s.techno_min) ∧
        (s.is_berlin_local = true ∧ s.berlin_local_count < s.berlin_local_min) := by
      rcases h with h | h
      · unfold Scenario2.needed_attributes at h
        obtain ⟨h1, h2, h3⟩ := ite_sum_ge_three h hnc
        exact ⟨h1, h3⟩
      · unfold Scenario2.critical_needed at h
        have hccf : ¬ (Scenario2.has_needed_creative s = true) := by
          unfold Scenario2.has_needed_creative
          simp [hcf]
        obtain ⟨h1, h2⟩ := ite_sum3_ge_two h hccf
        unfold Scenario2.has_needed_berlin at h1
        unfold Scenario2.has_needed_techno at h2
        simp only [Bool.and_eq_true, decide_eq_true_eq] at h1 h2
        exact ⟨h2, h1⟩
    obtain ⟨⟨htt, htlt⟩, hbt, hblt⟩ := ht
    have hcombo : Scenario2.has_rare_tech_berlin_combo s = true := by
      unfold Scenario2.has_rare_tech_berlin_combo
      rw [htt, hbt]
      rfl
    have hncp : ¬ (s.is_creative = true) := by simp [hcf]
    unfold Scenario2.core
    rw [if_neg hncp]
    by_cases htot : Scenario2.total_attributes s ≥ Scenario2.MIN_ATTRIBUTES_FOR_STRATEGY_2
    · rw [if_pos htot]
      unfold Scenario2.strategy2Block
      rw [if_pos hcombo, if_pos (Or.inl htlt)]
    · rw [if_neg htot]
      have hneed2 : Scenario2.needed_attributes s ≥ Scenario2.MIN_NEEDED_ATTRIBUTES := by
        unfold Scenario2.needed_attributes Scenario2.MIN_NEEDED_ATTRIBUTES
        rw [if_pos (show s.is_techno_lover = true ∧ s.techno_count < s.techno_min from
              ⟨htt, htlt⟩),
           if_pos (show s.is_berlin_local = true ∧ s.berlin_local_count < s.berlin_local_min from
              ⟨hbt, hblt⟩)]
        split_ifs <;> omega
      rw [if_pos hneed2]
      unfold Scenario2.strategy3Block
      rw [if_pos ⟨hcombo, htlt, hblt⟩]

/-- Scenario 3: once the hard rules are past, a candidate with three needed
    attributes or two critical ones is accepted by Strategy 2 (or earlier). -/
theorem s3_multi_need_accept_ctx (s : Scenario3.S3Ctx) (hq : ¬ s.queer_count < 130)
    (hv : ¬ s.vinyl_count < 130)
    (h : Scenario3.needed_attributes s ≥ 3 ∨ Scenario3.critical_attributes s ≥ 2) :
    Scenario3.hard_rules s = true := by
  unfold Scenario3.hard_rules
  rw [if_neg hq, if_neg hv]
  unfold Scenario3.strategy1 Scenario3.strategy2
  split_ifs <;> first | rfl | omega

/-- C4 (amended): below capacity, a candidate satisfying three or more
    still-needed constraints, or two or more critical ones, is accepted
    regardless of fill ratio, provided (scenario 3) the hard-rule bootstrap
    tallies have both reached 130, and (scenario 2) the candidate is not a
    creative candidate whose creative target is already met (those are
    decided entirely inside the creative block, which can reject late). -/
theorem c4_multi_need_accept :
    (∀ (pa : AttrMap) (cs : List Constraint) (a : Int) (counts : CountMap) (t : Int)
       (stats : Option AttributeStatistics) (e : Int), a < Scenario2.MAX_VENUE_CAPACITY →
       (aget pa "creative" = false ∨
         cget counts "creative" < cminGet cs "creative" Scenario2.DEFAULT_CREATIVE_MIN) →
       (Scenario2.needed_attributes (Scenario2.mkCtx pa cs a counts e) ≥ 3 ∨
         Scenario2.critical_needed (Scenario2.mkCtx pa cs a counts e) ≥ 2) →
       Scenario2.should_accept_person pa cs a counts t stats e = true) ∧
    (∀ (pa : AttrMap) (cs : List Constraint) (a : Int) (counts : CountMap) (t : Int)
       (stats : Option AttributeStatistics) (e : Int), a < Scenario3.MAX_VENUE_CAPACITY →
       ¬ cget counts "queer_friendly" < 130 → ¬ cget counts "vinyl_collector" < 130 →
       (Scenario3.needed_attributes (Scenario3.mkCtx pa cs a counts) ≥ 3 ∨
         Scenario3.critical_attributes (Scenario3.mkCtx pa cs a counts) ≥ 2) →
       Scenario3.should_accept_person pa cs a counts t stats e = true) := by
  constructor
  · intro pa cs a counts t stats e ha hcre h
    rw [s2_decide_eq pa cs a counts t stats e (not_le.mpr ha)]
    exact s2_multi_need_accept_ctx _ hcre h
  · intro pa cs a counts t stats e ha hq hv h
    rw [s3_decide_eq pa cs a counts t stats e (not_le.mpr ha)]
    exact s3_multi_need_accept_ctx _ hq hv h

/-- C4 witness: three-needed candidates accepted at 99 percent fill. -/
theorem c4_multi_need_accept_witness :
    Scenario2.should_accept_person
        [("techno_lover", true), ("well_connected", true), ("berlin_local", true)]
        [] 990 [] 0 none 0 = true ∧
    Scenario3.should_accept_person
        [("underground_veteran", true), ("international", true), ("fashion_forward", true)]
        [] 990 [("queer_friendly", 130), ("vinyl_collector", 130)] 0 none 0 = true :=
  ⟨c4_multi_need_accept.1 _ _ _ _ _ _ _ (by norm_num [Scenario2.MAX_VENUE_CAPACITY])
      (Or.inl (by with_unfolding_all decide)) (Or.inl (by with_unfolding_all decide)),
   c4_multi_need_accept.2 _ _ _ _ _ _ _ (by norm_num [Scenario3.MAX_VENUE_CAPACITY])
      (by with_unfolding_all decide) (by with_unfolding_all decide)
      (Or.inl (by with_unfolding_all decide))⟩

/-- C4 counterexample: a three-needed candidate is rejected in scenario 3
    during the hard-rule bootstrap, and in scenario 2 a creative candidate
    (creative target met) with three needed attributes is rejected at high
    fill, so the multi-need rule is neither unconditional nor phase-free. -/
theorem c4_counterexample :
    (Scenario3.needed_attributes (Scenario3.mkCtx
        [("underground_veteran", true), ("international", true), ("fashion_forward", true)]
        [] 0 []) ≥ 3 ∧
      Scenario3.should_accept_person
        [("underground_veteran", true), ("international", true), ("fashion_forward", true)]
        [] 0 [] 0 none 0 = false) ∧
    (Scenario2.needed_attributes (Scenario2.mkCtx
        [("techno_lover", true), ("well_connected", true), ("creative", true), ("berlin_local", true)]
        [] 950 [("creative", 300)] 0) ≥ 3 ∧
      (950 : Int) < Scenario2.MAX_VENUE_CAPACITY ∧
      Scenario2.should_accept_person
        [("techno_lover", true), ("well_connected", true), ("creative", true), ("berlin_local", true)]
        [] 950 [("creative", 300)] 0 none 0 = false) := by
  with_unfolding_all decide

/-! ## C7: constraint robustness -/

/-- A foldl lookup over entries that never name the attribute keeps the
    default. -/
theorem cminGet_default (cs : List Constraint) (name : String) (d : Int)
    (h : ∀ c ∈ cs, c.«attribute» ≠ name) : cminGet cs name d = d := by
  induction cs generalizing d with
  | nil => rfl
  | cons c rest ih =>
    have hc : c.«attribute» ≠ name := h c (List.mem_cons_self _ _)
    have hrest : ∀ c' ∈ rest, c'.«attribute» ≠ name :=
      fun c' hc' => h c' (List.mem_cons_of_mem _ hc')
    unfold cminGet
    simp only [List.foldl_cons]
    rw [if_neg (by simpa using hc)]
    exact ih d hrest

/-- The constraint loop succeeds on every list whose entries carry an
    attribute name and carry a minimum whenever the name is a tracked one. -/
theorem getMins_total (cs : List PlayGame.RawConstraint)
    (hcs : ∀ c ∈ cs, c.«attribute».isSome = true ∧
      (c.minCount.isSome = true ∨
        (c.«attribute» ≠ some "young" ∧ c.«attribute» ≠ some "well_dressed"))) :
    ∀ y w : Int, ∃ p, PlayGame.getMins cs y w = .ok p := by
  induction cs with
  | nil => intro y w; exact ⟨(y, w), rfl⟩
  | cons c rest ih =>
    intro y w
    obtain ⟨hsome, hm⟩ := hcs c (List.mem_cons_self _ _)
    have hrest := fun c' hc' => hcs c' (List.mem_cons_of_mem _ hc')
    obtain ⟨ca, cm⟩ := c
    cases ca with
    | none => simp at hsome
    | some n =>
      show ∃ p, PlayGame.getMins (⟨some n, cm⟩ :: rest) y w = .ok p
      by_cases h1 : (n == "young") = true
      · have hn : n = "young" := by simpa using h1
        cases cm with
        | none =>
          exfalso
          rcases hm with hm | hm
          · simp at hm
          · exact hm.1 (by simp [hn])
        | some m =>
          show ∃ p, (if (n == "young") = true then PlayGame.getMins rest m w
            else if (n == "well_dressed") = true then PlayGame.getMins rest y m
            else PlayGame.getMins rest y w) = .ok p
          rw [if_pos h1]
          exact ih hrest m w
      · by_cases h2 : (n == "well_dressed") = true
        · have hn : n = "well_dressed" := by simpa using h2
          cases cm with
          | none =>
            exfalso
            rcases hm with hm | hm
            · simp at hm
            · exact hm.2 (by simp [hn])
          | some m =>
            show ∃ p, (if (n == "young") = true then PlayGame.getMins rest m w
              else if (n == "well_dressed") = true then PlayGame.getMins rest y m
              else PlayGame.getMins rest y w) = .ok p
            rw [if_neg h1, if_pos h2]
            exact ih hrest y m
        · cases cm with
          | none =>
            show ∃ p, (if (n == "young") = true then Except.error ()
              else if (n == "well_dressed") = true then Except.error ()
              else PlayGame.getMins rest y w) = .ok p
            rw [if_neg h1, if_neg h2]
            exact ih hrest y w
          | some m =>
            show ∃ p, (if (n == "young") = true then PlayGame.getMins rest m w
              else if (n == "well_dressed") = true then PlayGame.getMins rest y m
              else PlayGame.getMins rest y w) = .ok p
            rw [if_neg h1, if_neg h2]
            exact ih hrest y w

/-- The scenario-2 constraint loop succeeds on every list whose entries carry
    both an attribute name and a minimum; it reads both keys of every entry,
    so nothing weaker suffices. -/
theorem s2_constraint_minsE_total (cs : List PlayGame.RawConstraint)
    (hcs : ∀ c ∈ cs, c.«attribute».isSome = true ∧ c.minCount.isSome = true) :
    ∃ p, Scenario2.constraint_minsE cs = .ok p := by
  induction cs with
  | nil => exact ⟨[], rfl⟩
  | cons c rest ih =>
    obtain ⟨ha, hm⟩ := hcs c (List.mem_cons_self _ _)
    obtain ⟨p, hp⟩ := ih (fun c' hc' => hcs c' (List.mem_cons_of_mem _ hc'))
    obtain ⟨ca, cm⟩ := c
    cases ca with
    | none => simp at ha
    | some a =>
      cases cm with
      | none => simp at hm
      | some m =>
        refine ⟨⟨a, m⟩ :: p, ?_⟩
        show (Scenario2.constraint_minsE rest).map _ = _
        rw [hp]
        rfl

/-- C7 (amended): the decisions never raise on fully formed constraint lists,
    and an attribute with no entry at all falls back to the documented
    default; but a malformed entry is fatal rather than defaulted, with a
    different failure shape per loop. The root loop reads an entry's minimum
    only when its name is tracked, so it tolerates unknown-name entries
    without a minimum yet raises a KeyError on a tracked-name entry missing
    one; the scenario-2 loop reads both keys of every entry, so any entry
    missing its name or its minimum raises there regardless of the name. -/
theorem c7_wellformed_total :
    (∀ (pa : AttrMap) (cs : List PlayGame.RawConstraint) (a : Int) (counts : CountMap)
       (t : Int) (stats : Option AttributeStatistics),
       (∀ c ∈ cs, c.«attribute».isSome = true ∧
         (c.minCount.isSome = true ∨
           (c.«attribute» ≠ some "young" ∧ c.«attribute» ≠ some "well_dressed"))) →
       ∃ b, PlayGame.should_accept_personE pa cs a counts t stats = .ok b) ∧
    (∀ (pa : AttrMap) (cs : List PlayGame.RawConstraint) (a : Int) (counts : CountMap)
       (t : Int) (stats : Option AttributeStatistics) (enc : Int),
       (∀ c ∈ cs, c.«attribute».isSome = true ∧ c.minCount.isSome = true) →
       ∃ b, Scenario2.should_accept_personE pa cs a counts t stats enc = .ok b) ∧
    (∀ cs : List Constraint, (∀ c ∈ cs, c.«attribute» ≠ "young") →
       cminGet cs "young" 600 = 600) := by
  refine ⟨?_, ?_, ?_⟩
  · intro pa cs a counts t stats hcs
    unfold PlayGame.should_accept_personE
    by_cases ha : a ≥ PlayGame.MAX_VENUE_CAPACITY
    · rw [if_pos ha]; exact ⟨false, rfl⟩
    · rw [if_neg ha]
      obtain ⟨⟨y, w⟩, hp⟩ := getMins_total cs hcs 600 600
      rw [hp]
      exact ⟨_, rfl⟩
  · intro pa cs a counts t stats enc hcs
    unfold Scenario2.should_accept_personE
    by_cases ha : a ≥ Scenario2.MAX_VENUE_CAPACITY
    · rw [if_pos ha]; exact ⟨false, rfl⟩
    · rw [if_neg ha]
      obtain ⟨p, hp⟩ := s2_constraint_minsE_total cs hcs
      rw [hp]
      exact ⟨_, rfl⟩
  · intro cs h
    exact cminGet_default cs "young" 600 h

/-- C7 witness: in the root an unconstrained tracked attribute and an
    unknown-name entry without a minimum both yield a boolean and the default
    minimum is used; in scenario 2 a fully formed list yields a boolean. -/
theorem c7_wellformed_total_witness :
    (∃ b, PlayGame.should_accept_personE [("young", true)]
        [⟨some "zzz", none⟩, ⟨some "well_dressed", some 500⟩] 0 [] 0 none = .ok b) ∧
    (∃ b, Scenario2.should_accept_personE [("creative", true)]
        [⟨some "creative", some 300⟩] 0 [] 0 none 0 = .ok b) ∧
    cminGet [⟨"well_dressed", 500⟩] "young" 600 = 600 :=
  ⟨c7_wellformed_total.1 _ _ _ _ _ _ (by with_unfolding_all decide),
   c7_wellformed_total.2.1 _ _ _ _ _ _ _ (by with_unfolding_all decide),
   c7_wellformed_total.2.2 [⟨"well_dressed", 500⟩] (by with_unfolding_all decide)⟩

/-- C7 counterexample: an entry naming 'young' but missing its minCount makes
    the root decision raise (KeyError) instead of substituting a default; and
    in scenario 2 even an entry with an unknown attribute name and no
    minCount raises, since that loop reads the minimum of every entry. -/
theorem c7_counterexample :
    PlayGame.should_accept_personE [("young", true)] [⟨some "young", none⟩] 0 [] 0 none
      = .error () ∧
    Scenario2.should_accept_personE [("creative", true)] [⟨some "zzz", none⟩] 0 [] 0 none 0
      = .error () := by
  exact ⟨by with_unfolding_all rfl, by with_unfolding_all rfl⟩

/-! ## C8: driver-loop invariant -/



/-- Unfolding lemma for dict-get on a cons cell. -/
theorem cget_cons (p : String × Int) (m : CountMap) (k : String) :
    cget (p :: m) k = if p.1 == k then p.2 else cget m k := rfl

/-- Unfolding lemma for attribute-get on a cons cell. -/
theorem aget_cons (p : String × Bool) (m : AttrMap) (k : String) :
    aget (p :: m) k = if p.1 == k then p.2 else aget m k := rfl

/-- Reading a key after a dict write: the written key returns the new value,
    every other key is untouched. -/
theorem cget_cset (m : CountMap) (k k' : String) (v : Int) :
    cget (cset m k v) k' = if k == k' then v else cget m k' := by
  induction m with
  | nil => rfl
  | cons p rest ih =>
    unfold cset
    by_cases hp : (p.1 == k) = true
    · have e1 : p.1 = k := by simpa using hp
      subst e1
      rw [if_pos hp]
      by_cases hq : (p.1 == k') = true
      · rw [cget_cons, cget_cons, if_pos hq, if_pos hq]
      · rw [cget_cons, cget_cons, if_neg hq, if_neg hq, if_neg hq]
    · rw [if_neg hp, cget_cons, cget_cons, ih]
      by_cases hq : (p.1 == k') = true
      · have e1 : p.1 = k' := by simpa using hq
        have e2 : ¬ p.1 = k := by simpa using hp
        have e3 : ¬ (k == k') = true := by
          intro hkk
          exact e2 (by rw [e1]; exact (by simpa using hkk : k = k').symm)
        rw [if_pos hq, if_neg e3, if_pos hq]
      · rw [if_neg hq]
        by_cases h : (k == k') = true
        · rw [if_pos h, if_pos h]
        · rw [if_neg h, if_neg h, if_neg hq]

/-- An absent key reads as false. -/
theorem aget_eq_false_of_not_mem (m : AttrMap) (k : String)
    (h : k ∉ m.map Prod.fst) : aget m k = false := by
  induction m with
  | nil => rfl
  | cons p rest ih =>
    have hp : ¬ p.1 = k := fun hk => h (by simp [hk])
    have hrest : k ∉ rest.map Prod.fst := fun hk => h (by simp [hk])
    rw [aget_cons, if_neg (by simpa using hp)]
    exact ih hrest

/-- The driver's tally update: with distinct attribute keys (a Python dict),
    each key gains exactly one when the candidate carries that attribute,
    and is untouched otherwise. -/
theorem update_cget (attrs : AttrMap) (m : CountMap) (k : String)
    (hnodup : (attrs.map Prod.fst).Nodup) :
    cget (PlayGame.update_attribute_counts m attrs) k
      = cget m k + (if aget attrs k = true then 1 else 0) := by
  induction attrs generalizing m with
  | nil => simp [PlayGame.update_attribute_counts, aget]
  | cons p rest ih =>
    obtain ⟨hnotmem, hnodup'⟩ := List.nodup_cons.mp hnodup
    have hstep : PlayGame.update_attribute_counts m (p :: rest) =
        PlayGame.update_attribute_counts
          (if p.2 then cset m p.1 (cget m p.1 + 1) else m) rest := rfl
    rw [hstep, ih _ hnodup', aget_cons]
    by_cases hpk : (p.1 == k) = true
    · have hk : p.1 = k := by simpa using hpk
      have hrk : aget rest k = false := by
        apply aget_eq_false_of_not_mem
        rw [← hk]
        simpa using hnotmem
      rw [if_pos hpk, hrk]
      cases hv : p.2 with
      | false => simp
      | true =>
        simp only [if_true]
        rw [cget_cset, hk]
        simp
    · rw [if_neg hpk]
      cases hv : p.2 with
      | false => simp
      | true =>
        simp only [if_true]
        rw [cget_cset]
        have : (p.1 == k) = false := by simpa using hpk
        rw [this]
        simp

/-- A read is bounded by a bound on all stored values (when nonnegative). -/
theorem cget_le (m : CountMap) (k : String) (b : Int) (h0 : 0 ≤ b)
    (h : ∀ p ∈ m, p.2 ≤ b) : cget m k ≤ b := by
  induction m with
  | nil => exact h0
  | cons p rest ih =>
    rw [cget_cons]
    by_cases hp : (p.1 == k) = true
    · rw [if_pos hp]
      exact h p (List.mem_cons_self _ _)
    · rw [if_neg hp]
      exact ih fun q hq => h q (List.mem_cons_of_mem _ hq)

/-- C8: one driver-loop step updates tallies only on acceptance and only for
    attributes the candidate carries, leaves them unchanged on rejection,
    and -- when the server's admitted count registers the acceptance --
    preserves the invariant that every per-attribute tally is at most the
    admitted count. -/
theorem c8_step_invariant :
    ∀ (cs : List Constraint) (stats : Option AttributeStatistics) (admitted rejected : Int)
      (counts : CountMap) (attrs : AttrMap) (admitted' : Int),
      (attrs.map Prod.fst).Nodup →
      0 ≤ admitted →
      (∀ p ∈ counts, p.2 ≤ admitted) →
      admitted' = admitted +
        (if (PlayGame.play_game_step cs stats admitted rejected counts attrs).1 then 1 else 0) →
      ((PlayGame.play_game_step cs stats admitted rejected counts attrs).1 = false →
        (PlayGame.play_game_step cs stats admitted rejected counts attrs).2 = counts) ∧
      (∀ k, cget (PlayGame.play_game_step cs stats admitted rejected counts attrs).2 k =
        cget counts k +
          (if (PlayGame.play_game_step cs stats admitted rejected counts attrs).1 = true ∧
              aget attrs k = true then 1 else 0)) ∧
      (∀ k, cget (PlayGame.play_game_step cs stats admitted rejected counts attrs).2 k ≤ admitted') := by
  intro cs stats admitted rejected counts attrs admitted' hnodup h0 hbound hadm
  have hfst : (PlayGame.play_game_step cs stats admitted rejected counts attrs).1 =
      PlayGame.should_accept_person attrs cs admitted counts (admitted + rejected) stats := rfl
  have hsnd : (PlayGame.play_game_step cs stats admitted rejected counts attrs).2 =
      (if PlayGame.should_accept_person attrs cs admitted counts (admitted + rejected) stats
        then PlayGame.update_attribute_counts counts attrs else counts) := rfl
  rw [hfst] at hadm
  cases hacc : PlayGame.should_accept_person attrs cs admitted counts (admitted + rejected) stats with
  | false =>
    rw [hacc] at hadm
    simp only [Bool.false_eq_true, if_false, add_zero] at hadm
    refine ⟨fun _ => ?_, fun k => ?_, fun k => ?_⟩
    · rw [hsnd, hacc]
      simp
    · rw [hsnd, hfst, hacc]
      simp
    · rw [hsnd, hacc, hadm]
      simp only [Bool.false_eq_true, if_false]
      exact cget_le counts k admitted h0 hbound
  | true =>
    rw [hacc] at hadm
    simp only [if_true] at hadm
    refine ⟨fun hcontra => ?_, fun k => ?_, fun k => ?_⟩
    · rw [hfst, hacc] at hcontra
      cases hcontra
    · rw [hsnd, hfst, hacc]
      simp only [if_true, true_and]
      exact update_cget attrs counts k hnodup
    · rw [hsnd, hacc]
      simp only [if_true]
      rw [update_cget attrs counts k hnodup, hadm]
      have := cget_le counts k admitted h0 hbound
      by_cases hk : aget attrs k = true
      · rw [if_pos hk]; omega
      · rw [if_neg hk]; omega

/-- C8 witness: an accepted young candidate bumps the young tally to 4,
    within the refreshed admitted count 6. -/
theorem c8_step_invariant_witness :
    cget (PlayGame.play_game_step [] none 5 0 [("young", 3)] [("young", true)]).2 "young" ≤ 6 :=
  (c8_step_invariant [] none 5 0 [("young", 3)] [("young", true)] 6
      (by with_unfolding_all decide) (by norm_num) (by with_unfolding_all decide)
      (by with_unfolding_all decide)).2.2 "young"

/-! ## C5: phase monotonicity -/

/- The scenario-3 context at a changed admitted count: every extracted flag,
   minimum, tally and derived quantity except the venue fill is unchanged. -/

@[simp] theorem s3w_is_underground (s : Scenario3.S3Ctx) (a : Int) :
    (Scenario3.withAdmitted s a).is_underground = s.is_underground := rfl
@[simp] theorem s3w_is_international (s : Scenario3.S3Ctx) (a : Int) :
    (Scenario3.withAdmitted s a).is_international = s.is_international := rfl
@[simp] theorem s3w_is_fashion (s : Scenario3.S3Ctx) (a : Int) :
    (Scenario3.withAdmitted s a).is_fashion = s.is_fashion := rfl
@[simp] theorem s3w_is_queer (s : Scenario3.S3Ctx) (a : Int) :
    (Scenario3.withAdmitted s a).is_queer = s.is_queer := rfl
@[simp] theorem s3w_is_vinyl (s : Scenario3.S3Ctx) (a : Int) :
    (Scenario3.withAdmitted s a).is_vinyl = s.is_vinyl := rfl
@[simp] theorem s3w_is_german (s : Scenario3.S3Ctx) (a : Int) :
    (Scenario3.withAdmitted s a).is_german = s.is_german := rfl
@[simp] theorem s3w_underground_min (s : Scenario3.S3Ctx) (a : Int) :
    (Scenario3.withAdmitted s a).underground_min = s.underground_min := rfl
@[simp] theorem s3w_international_min (s : Scenario3.S3Ctx) (a : Int) :
    (Scenario3.withAdmitted s a).international_min = s.international_min := rfl
@[simp] theorem s3w_fashion_min (s : Scenario3.S3Ctx) (a : Int) :
    (Scenario3.withAdmitted s a).fashion_min = s.fashion_min := rfl
@[simp] theorem s3w_queer_min (s : Scenario3.S3Ctx) (a : Int) :
    (Scenario3.withAdmitted s a).queer_min = s.queer_min := rfl
@[simp] theorem s3w_vinyl_min (s : Scenario3.S3Ctx) (a : Int) :
    (Scenario3.withAdmitted s a).vinyl_min = s.vinyl_min := rfl
@[simp] theorem s3w_german_min (s : Scenario3.S3Ctx) (a : Int) :
    (Scenario3.withAdmitted s a).german_min = s.german_min := rfl
@[simp] theorem s3w_underground_count (s : Scenario3.S3Ctx) (a : Int) :
    (Scenario3.withAdmitted s a).underground_count = s.underground_count := rfl
@[simp] theorem s3w_international_count (s : Scenario3.S3Ctx) (a : Int) :
    (Scenario3.withAdmitted s a).international_count = s.international_count := rfl
@[simp] theorem s3w_fashion_count (s : Scenario3.S3Ctx) (a : Int) :
    (Scenario3.withAdmitted s a).fashion_count = s.fashion_count := rfl
@[simp] theorem s3w_queer_count (s : Scenario3.S3Ctx) (a : Int) :
    (Scenario3.withAdmitted s a).queer_count = s.queer_count := rfl
@[simp] theorem s3w_vinyl_count (s : Scenario3.S3Ctx) (a : Int) :
    (Scenario3.withAdmitted s a).vinyl_count = s.vinyl_count := rfl
@[simp] theorem s3w_german_count (s : Scenario3.S3Ctx) (a : Int) :
    (Scenario3.withAdmitted s a).german_count = s.german_count := rfl
@[simp] theorem s3w_underground_progress (s : Scenario3.S3Ctx) (a : Int) :
    Scenario3.underground_progress (Scenario3.withAdmitted s a) = Scenario3.underground_progress s := rfl
@[simp] theorem s3w_international_progress (s : Scenario3.S3Ctx) (a : Int) :
    Scenario3.international_progress (Scenario3.withAdmitted s a) = Scenario3.international_progress s := rfl
@[simp] theorem s3w_fashion_progress (s : Scenario3.S3Ctx) (a : Int) :
    Scenario3.fashion_progress (Scenario3.withAdmitted s a) = Scenario3.fashion_progress s := rfl
@[simp] theorem s3w_queer_progress (s : Scenario3.S3Ctx) (a : Int) :
    Scenario3.queer_progress (Scenario3.withAdmitted s a) = Scenario3.queer_progress s := rfl
@[simp] theorem s3w_vinyl_progress (s : Scenario3.S3Ctx) (a : Int) :
    Scenario3.vinyl_progress (Scenario3.withAdmitted s a) = Scenario3.vinyl_progress s := rfl
@[simp] theorem s3w_german_progress (s : Scenario3.S3Ctx) (a : Int) :
    Scenario3.german_progress (Scenario3.withAdmitted s a) = Scenario3.german_progress s := rfl
@[simp] theorem s3w_underground_deficit (s : Scenario3.S3Ctx) (a : Int) :
    Scenario3.underground_deficit (Scenario3.withAdmitted s a) = Scenario3.underground_deficit s := rfl
@[simp] theorem s3w_international_deficit (s : Scenario3.S3Ctx) (a : Int) :
    Scenario3.international_deficit (Scenario3.withAdmitted s a) = Scenario3.international_deficit s := rfl
@[simp] theorem s3w_fashion_deficit (s : Scenario3.S3Ctx) (a : Int) :
    Scenario3.fashion_deficit (Scenario3.withAdmitted s a) = Scenario3.fashion_deficit s := rfl
@[simp] theorem s3w_queer_deficit (s : Scenario3.S3Ctx) (a : Int) :
    Scenario3.queer_deficit (Scenario3.withAdmitted s a) = Scenario3.queer_deficit s := rfl
@[simp] theorem s3w_vinyl_deficit (s : Scenario3.S3Ctx) (a : Int) :
    Scenario3.vinyl_deficit (Scenario3.withAdmitted s a) = Scenario3.vinyl_deficit s := rfl
@[simp] theorem s3w_german_deficit (s : Scenario3.S3Ctx) (a : Int) :
    Scenario3.german_deficit (Scenario3.withAdmitted s a) = Scenario3.german_deficit s := rfl
@[simp] theorem s3w_needed (s : Scenario3.S3Ctx) (a : Int) :
    Scenario3.needed_attributes (Scenario3.withAdmitted s a) = Scenario3.needed_attributes s := rfl
@[simp] theorem s3w_critical (s : Scenario3.S3Ctx) (a : Int) :
    Scenario3.critical_attributes (Scenario3.withAdmitted s a) = Scenario3.critical_attributes s := rfl
@[simp] theorem s3w_max_deficit (s : Scenario3.S3Ctx) (a : Int) :
    Scenario3.max_deficit (Scenario3.withAdmitted s a) = Scenario3.max_deficit s := rfl

/-- The venue fill ratio is monotone in the admitted count. -/
theorem s3_fill_mono (s : Scenario3.S3Ctx) (a1 a2 : Int) (h : a1 ≤ a2) :
    Scenario3.venue_fill (Scenario3.withAdmitted s a1) ≤
      Scenario3.venue_fill (Scenario3.withAdmitted s a2) := by
  show (a1 : Rat) / ((Scenario3.MAX_VENUE_CAPACITY : Int) : Rat) ≤
    (a2 : Rat) / ((Scenario3.MAX_VENUE_CAPACITY : Int) : Rat)
  have h' : (a1 : Rat) ≤ (a2 : Rat) := by exact_mod_cast h
  have hc : (0 : Rat) < ((Scenario3.MAX_VENUE_CAPACITY : Int) : Rat) := by
    norm_num [Scenario3.MAX_VENUE_CAPACITY]
  exact div_le_div_of_nonneg_right h' hc.le

/-- Strategy 7 rejects below the late threshold. -/
theorem s3_strategy7_mono (s : Scenario3.S3Ctx) (a1 a2 : Int) (h12 : a1 ≤ a2)
    (hlate : Scenario3.venue_fill (Scenario3.withAdmitted s a2) < Scenario3.VENUE_FILL_LATE)
    (h : Scenario3.strategy7 (Scenario3.withAdmitted s a2) = true) :
    Scenario3.strategy7 (Scenario3.withAdmitted s a1) = true := by
  exfalso
  unfold Scenario3.strategy7 at h
  rw [if_neg (not_le.mpr hlate)] at h
  exact absurd h (by simp)

/-- Strategy 6 (then 7): an accept at the later fill is an accept earlier. -/
theorem s3_strategy6_mono (s : Scenario3.S3Ctx) (a1 a2 : Int) (h12 : a1 ≤ a2)
    (hlate : Scenario3.venue_fill (Scenario3.withAdmitted s a2) < Scenario3.VENUE_FILL_LATE)
    (h : Scenario3.strategy6 (Scenario3.withAdmitted s a2) = true) :
    Scenario3.strategy6 (Scenario3.withAdmitted s a1) = true := by
  have hf := s3_fill_mono s a1 a2 h12
  unfold Scenario3.strategy6 at h ⊢
  simp only [s3w_needed, s3w_max_deficit] at h ⊢
  by_cases c1 : Scenario3.needed_attributes s ≥ 1
  · rw [if_pos c1] at h ⊢
    by_cases c2 : Scenario3.venue_fill (Scenario3.withAdmitted s a1) < Scenario3.VENUE_FILL_EARLY
    · rw [if_pos c2]
    · rw [if_neg c2]
      have c2' : ¬ Scenario3.venue_fill (Scenario3.withAdmitted s a2) < Scenario3.VENUE_FILL_EARLY :=
        fun hcon => c2 (by linarith)
      rw [if_neg c2'] at h
      by_cases c3 : Scenario3.venue_fill (Scenario3.withAdmitted s a1) < Scenario3.VENUE_FILL_MID ∧
          Scenario3.max_deficit s > Scenario3.DEFICIT_MODERATE
      · rw [if_pos c3]
      · rw [if_neg c3]
        by_cases c3h : Scenario3.venue_fill (Scenario3.withAdmitted s a2) < Scenario3.VENUE_FILL_MID ∧
            Scenario3.max_deficit s > Scenario3.DEFICIT_MODERATE
        · exact absurd ⟨by linarith [c3h.1], c3h.2⟩ c3
        · rw [if_neg c3h] at h
          exact s3_strategy7_mono s a1 a2 h12 hlate h
  · rw [if_neg c1] at h ⊢
    exact s3_strategy7_mono s a1 a2 h12 hlate h

/-- Strategy 5, fashion branch: monotone below the late threshold. -/
theorem s3_s5fashion_mono (s : Scenario3.S3Ctx) (a1 a2 : Int) (h12 : a1 ≤ a2)
    (hlate : Scenario3.venue_fill (Scenario3.withAdmitted s a2) < Scenario3.VENUE_FILL_LATE)
    (h : Scenario3.strategy5_fashion (Scenario3.withAdmitted s a2) = true) :
    Scenario3.strategy5_fashion (Scenario3.withAdmitted s a1) = true := by
  have hf := s3_fill_mono s a1 a2 h12
  have hlate1 : Scenario3.venue_fill (Scenario3.withAdmitted s a1) < Scenario3.VENUE_FILL_LATE :=
    lt_of_le_of_lt hf hlate
  unfold Scenario3.strategy5_fashion at h ⊢
  simp only [s3w_is_fashion, s3w_fashion_count, s3w_fashion_min, s3w_fashion_deficit,
    s3w_fashion_progress] at h ⊢
  by_cases c1 : s.is_fashion = true
  · rw [if_pos c1] at h ⊢
    by_cases c2 : s.fashion_count < s.fashion_min
    · rw [if_pos c2] at h ⊢
      by_cases c3 : Scenario3.fashion_deficit s > Scenario3.DEFICIT_LOW
      · rw [if_pos c3]
      · rw [if_neg c3] at h ⊢
        by_cases c4 : Scenario3.venue_fill (Scenario3.withAdmitted s a1) < Scenario3.VENUE_FILL_MID
        · rw [if_pos c4]
        · rw [if_neg c4]
          have c4' : ¬ Scenario3.venue_fill (Scenario3.withAdmitted s a2) < Scenario3.VENUE_FILL_MID :=
            fun hcon => c4 (by linarith)
          rw [if_neg c4'] at h
          exact s3_strategy6_mono s a1 a2 h12 hlate h
    · rw [if_neg c2] at h ⊢
      by_cases c5 : Scenario3.fashion_progress s < Scenario3.OVER_TARGET_COMMON ∧
          Scenario3.venue_fill (Scenario3.withAdmitted s a1) < Scenario3.VENUE_FILL_LATE
      · rw [if_pos c5]
      · have c5' : ¬ (Scenario3.fashion_progress s < Scenario3.OVER_TARGET_COMMON ∧
            Scenario3.venue_fill (Scenario3.withAdmitted s a2) < Scenario3.VENUE_FILL_LATE) :=
          fun hcon => c5 ⟨hcon.1, hlate1⟩
        rw [if_neg c5]
        rw [if_neg c5'] at h
        exact s3_strategy6_mono s a1 a2 h12 hlate h
  · rw [if_neg c1] at h ⊢
    exact s3_strategy6_mono s a1 a2 h12 hlate h

/-- Strategy 5, underground branch: monotone below the late threshold. -/
theorem s3_s5underground_mono (s : Scenario3.S3Ctx) (a1 a2 : Int) (h12 : a1 ≤ a2)
    (hlate : Scenario3.venue_fill (Scenario3.withAdmitted s a2) < Scenario3.VENUE_FILL_LATE)
    (h : Scenario3.strategy5_underground (Scenario3.withAdmitted s a2) = true) :
    Scenario3.strategy5_underground (Scenario3.withAdmitted s a1) = true := by
  have hf := s3_fill_mono s a1 a2 h12
  have hlate1 : Scenario3.venue_fill (Scenario3.withAdmitted s a1) < Scenario3.VENUE_FILL_LATE :=
    lt_of_le_of_lt hf hlate
  unfold Scenario3.strategy5_underground at h ⊢
  simp only [s3w_is_underground, s3w_underground_count, s3w_underground_min,
    s3w_underground_deficit, s3w_underground_progress] at h ⊢
  by_cases c1 : s.is_underground = true
  · rw [if_pos c1] at h ⊢
    by_cases c2 : s.underground_count < s.underground_min
    · rw [if_pos c2] at h ⊢
      by_cases c3 : Scenario3.underground_deficit s > Scenario3.DEFICIT_LOW
      · rw [if_pos c3]
      · rw [if_neg c3] at h ⊢
        by_cases c4 : Scenario3.venue_fill (Scenario3.withAdmitted s a1) < Scenario3.VENUE_FILL_MID
        · rw [if_pos c4]
        · rw [if_neg c4]
          have c4' : ¬ Scenario3.venue_fill (Scenario3.withAdmitted s a2) < Scenario3.VENUE_FILL_MID :=
            fun hcon => c4 (by linarith)
          rw [if_neg c4'] at h
          exact s3_s5fashion_mono s a1 a2 h12 hlate h
    · rw [if_neg c2] at h ⊢
      by_cases c5 : Scenario3.underground_progress s < Scenario3.OVER_TARGET_COMMON ∧
          Scenario3.venue_fill (Scenario3.withAdmitted s a1) < Scenario3.VENUE_FILL_LATE
      · rw [if_pos c5]
      · have c5' : ¬ (Scenario3.underground_progress s < Scenario3.OVER_TARGET_COMMON ∧
            Scenario3.venue_fill (Scenario3.withAdmitted s a2) < Scenario3.VENUE_FILL_LATE) :=
          fun hcon => c5 ⟨hcon.1, hlate1⟩
        rw [if_neg c5]
        rw [if_neg c5'] at h
        exact s3_s5fashion_mono s a1 a2 h12 hlate h
  · rw [if_neg c1] at h ⊢
    exact s3_s5fashion_mono s a1 a2 h12 hlate h

/-- Strategy 5, international branch: monotone below the late threshold. -/
theorem s3_s5international_mono (s : Scenario3.S3Ctx) (a1 a2 : Int) (h12 : a1 ≤ a2)
    (hlate : Scenario3.venue_fill (Scenario3.withAdmitted s a2) < Scenario3.VENUE_FILL_LATE)
    (h : Scenario3.strategy5_international (Scenario3.withAdmitted s a2) = true) :
    Scenario3.strategy5_international (Scenario3.withAdmitted s a1) = true := by
  have hf := s3_fill_mono s a1 a2 h12
  have hlate1 : Scenario3.venue_fill (Scenario3.withAdmitted s a1) < Scenario3.VENUE_FILL_LATE :=
    lt_of_le_of_lt hf hlate
  unfold Scenario3.strategy5_international at h ⊢
  simp only [s3w_is_international, s3w_is_german, s3w_international_count, s3w_international_min,
    s3w_international_deficit, s3w_international_progress] at h ⊢
  by_cases c1 : s.is_international = true ∧ ¬ s.is_german = true
  · rw [if_pos c1] at h ⊢
    by_cases c2 : s.international_count < s.international_min
    · rw [if_pos c2] at h ⊢
      by_cases c3 : Scenario3.international_deficit s > Scenario3.DEFICIT_LOW
      · rw [if_pos c3]
      · rw [if_neg c3] at h ⊢
        by_cases c4 : Scenario3.venue_fill (Scenario3.withAdmitted s a1) < Scenario3.VENUE_FILL_MID
        · rw [if_pos c4]
        · rw [if_neg c4]
          have c4' : ¬ Scenario3.venue_fill (Scenario3.withAdmitted s a2) < Scenario3.VENUE_FILL_MID :=
            fun hcon => c4 (by linarith)
          rw [if_neg c4'] at h
          exact s3_s5underground_mono s a1 a2 h12 hlate h
    · rw [if_neg c2] at h ⊢
      by_cases c5 : Scenario3.international_progress s < Scenario3.OVER_TARGET_COMMON ∧
          Scenario3.venue_fill (Scenario3.withAdmitted s a1) < Scenario3.VENUE_FILL_LATE
      · rw [if_pos c5]
      · have c5' : ¬ (Scenario3.international_progress s < Scenario3.OVER_TARGET_COMMON ∧
            Scenario3.venue_fill (Scenario3.withAdmitted s a2) < Scenario3.VENUE_FILL_LATE) :=
          fun hcon => c5 ⟨hcon.1, hlate1⟩
        rw [if_neg c5]
        rw [if_neg c5'] at h
        exact s3_s5underground_mono s a1 a2 h12 hlate h
  · rw [if_neg c1] at h ⊢
    exact s3_s5underground_mono s a1 a2 h12 hlate h

/-- Strategy 5, german branch: monotone below the late threshold. -/
theorem s3_s5german_mono (s : Scenario3.S3Ctx) (a1 a2 : Int) (h12 : a1 ≤ a2)
    (hlate : Scenario3.venue_fill (Scenario3.withAdmitted s a2) < Scenario3.VENUE_FILL_LATE)
    (h : Scenario3.strategy5_german (Scenario3.withAdmitted s a2) = true) :
    Scenario3.strategy5_german (Scenario3.withAdmitted s a1) = true := by
  have hf := s3_fill_mono s a1 a2 h12
  have hlate1 : Scenario3.venue_fill (Scenario3.withAdmitted s a1) < Scenario3.VENUE_FILL_LATE :=
    lt_of_le_of_lt hf hlate
  unfold Scenario3.strategy5_german at h ⊢
  simp only [s3w_is_german, s3w_is_international, s3w_german_count, s3w_german_min,
    s3w_german_deficit, s3w_german_progress] at h ⊢
  by_cases c1 : s.is_german = true ∧ ¬ s.is_international = true
  · rw [if_pos c1] at h ⊢
    by_cases c2 : s.german_count < s.german_min
    · rw [if_pos c2] at h ⊢
      by_cases c3 : Scenario3.german_deficit s > Scenario3.DEFICIT_LOW
      · rw [if_pos c3]
      · rw [if_neg c3] at h ⊢
        by_cases c4 : Scenario3.venue_fill (Scenario3.withAdmitted s a1) < Scenario3.VENUE_FILL_MID
        · rw [if_pos c4]
        · rw [if_neg c4]
          have c4' : ¬ Scenario3.venue_fill (Scenario3.withAdmitted s a2) < Scenario3.VENUE_FILL_MID :=
            fun hcon => c4 (by linarith)
          rw [if_neg c4'] at h
          exact s3_s5international_mono s a1 a2 h12 hlate h
    · rw [if_neg c2] at h ⊢
      by_cases c5 : Scenario3.german_progress s < Scenario3.OVER_TARGET_COMMON ∧
          Scenario3.venue_fill (Scenario3.withAdmitted s a1) < Scenario3.VENUE_FILL_LATE
      · rw [if_pos c5]
      · have c5' : ¬ (Scenario3.german_progress s < Scenario3.OVER_TARGET_COMMON ∧
            Scenario3.venue_fill (Scenario3.withAdmitted s a2) < Scenario3.VENUE_FILL_LATE) :=
          fun hcon => c5 ⟨hcon.1, hlate1⟩
        rw [if_neg c5]
        rw [if_neg c5'] at h
        exact s3_s5international_mono s a1 a2 h12 hlate h
  · rw [if_neg c1] at h ⊢
    exact s3_s5international_mono s a1 a2 h12 hlate h

/-- Strategy 4: monotone below the late threshold. -/
theorem s3_strategy4_mono (s : Scenario3.S3Ctx) (a1 a2 : Int) (h12 : a1 ≤ a2)
    (hlate : Scenario3.venue_fill (Scenario3.withAdmitted s a2) < Scenario3.VENUE_FILL_LATE)
    (h : Scenario3.strategy4 (Scenario3.withAdmitted s a2) = true) :
    Scenario3.strategy4 (Scenario3.withAdmitted s a1) = true := by
  have hf := s3_fill_mono s a1 a2 h12
  have hlate1 : Scenario3.venue_fill (Scenario3.withAdmitted s a1) < Scenario3.VENUE_FILL_LATE :=
    lt_of_le_of_lt hf hlate
  unfold Scenario3.strategy4 at h ⊢
  simp only [s3w_is_international, s3w_is_german, s3w_international_count, s3w_international_min,
    s3w_german_count, s3w_german_min, s3w_international_progress, s3w_german_progress] at h ⊢
  by_cases c1 : s.is_international = true ∧ s.is_german = true
  · rw [if_pos c1] at h ⊢
    by_cases c2 : s.international_count < s.international_min ∨ s.german_count < s.german_min
    · rw [if_pos c2]
    · rw [if_neg c2] at h ⊢
      by_cases c3 : Scenario3.international_progress s < Scenario3.OVER_TARGET_COMMON ∧
          Scenario3.german_progress s < Scenario3.OVER_TARGET_COMMON ∧
          Scenario3.venue_fill (Scenario3.withAdmitted s a1) < Scenario3.VENUE_FILL_LATE
      · rw [if_pos c3]
      · have c3' : ¬ (Scenario3.international_progress s < Scenario3.OVER_TARGET_COMMON ∧
            Scenario3.german_progress s < Scenario3.OVER_TARGET_COMMON ∧
            Scenario3.venue_fill (Scenario3.withAdmitted s a2) < Scenario3.VENUE_FILL_LATE) :=
          fun hcon => c3 ⟨hcon.1, hcon.2.1, hlate1⟩
        rw [if_neg c3'] at h
        exact absurd h (by simp)
  · rw [if_neg c1] at h ⊢
    exact s3_s5german_mono s a1 a2 h12 hlate h

/-- Strategy 3: monotone below the late threshold. -/
theorem s3_strategy3_mono (s : Scenario3.S3Ctx) (a1 a2 : Int) (h12 : a1 ≤ a2)
    (hlate : Scenario3.venue_fill (Scenario3.withAdmitted s a2) < Scenario3.VENUE_FILL_LATE)
    (h : Scenario3.strategy3 (Scenario3.withAdmitted s a2) = true) :
    Scenario3.strategy3 (Scenario3.withAdmitted s a1) = true := by
  have hf := s3_fill_mono s a1 a2 h12
  have hlate1 : Scenario3.venue_fill (Scenario3.withAdmitted s a1) < Scenario3.VENUE_FILL_LATE :=
    lt_of_le_of_lt hf hlate
  unfold Scenario3.strategy3 at h ⊢
  simp only [s3w_is_queer, s3w_is_vinyl, s3w_queer_count, s3w_queer_min, s3w_vinyl_count,
    s3w_vinyl_min, s3w_queer_progress, s3w_vinyl_progress] at h ⊢
  by_cases c1 : s.is_queer = true ∧ s.queer_count < s.queer_min
  · rw [if_pos c1]
  · rw [if_neg c1] at h ⊢
    by_cases c2 : s.is_queer = true ∧ Scenario3.queer_progress s < Scenario3.OVER_TARGET_RARE ∧
        Scenario3.venue_fill (Scenario3.withAdmitted s a1) < Scenario3.VENUE_FILL_LATE
    · rw [if_pos c2]
    · have c2' : ¬ (s.is_queer = true ∧ Scenario3.queer_progress s < Scenario3.OVER_TARGET_RARE ∧
          Scenario3.venue_fill (Scenario3.withAdmitted s a2) < Scenario3.VENUE_FILL_LATE) :=
        fun hcon => c2 ⟨hcon.1, hcon.2.1, hlate1⟩
      rw [if_neg c2]
      rw [if_neg c2'] at h
      by_cases c3 : s.is_vinyl = true ∧ s.vinyl_count < s.vinyl_min
      · rw [if_pos c3]
      · rw [if_neg c3] at h ⊢
        by_cases c4 : s.is_vinyl = true ∧ Scenario3.vinyl_progress s < Scenario3.OVER_TARGET_RARE ∧
            Scenario3.venue_fill (Scenario3.withAdmitted s a1) < Scenario3.VENUE_FILL_LATE
        · rw [if_pos c4]
        · have c4' : ¬ (s.is_vinyl = true ∧ Scenario3.vinyl_progress s < Scenario3.OVER_TARGET_RARE ∧
              Scenario3.venue_fill (Scenario3.withAdmitted s a2) < Scenario3.VENUE_FILL_LATE) :=
            fun hcon => c4 ⟨hcon.1, hcon.2.1, hlate1⟩
          rw [if_neg c4]
          rw [if_neg c4'] at h
          exact s3_strategy4_mono s a1 a2 h12 hlate h

/-- Strategies 2 and 1 and the hard rules only test admitted-independent
    conditions before falling through, so monotonicity propagates. -/
theorem s3_hard_rules_mono (s : Scenario3.S3Ctx) (a1 a2 : Int) (h12 : a1 ≤ a2)
    (hlate : Scenario3.venue_fill (Scenario3.withAdmitted s a2) < Scenario3.VENUE_FILL_LATE)
    (h : Scenario3.hard_rules (Scenario3.withAdmitted s a2) = true) :
    Scenario3.hard_rules (Scenario3.withAdmitted s a1) = true := by
  unfold Scenario3.hard_rules Scenario3.strategy1 Scenario3.strategy2 at h ⊢
  simp only [s3w_is_queer, s3w_is_vinyl, s3w_queer_count, s3w_queer_min, s3w_vinyl_count,
    s3w_vinyl_min, s3w_needed, s3w_critical] at h ⊢
  split_ifs at h ⊢ <;> first
    | rfl
    | exact h
    | exact s3_strategy3_mono s a1 a2 h12 hlate h

/-- The root scenario's decision core is antitone in the admitted count for a
    single-need candidate: a rejection at a lower admitted count persists at
    any higher one. -/
theorem s1_core_mono (pa : AttrMap) (counts : CountMap) (ymin wmin a1 a2 : Int)
    (h12 : a1 ≤ a2)
    (hy0 : 0 ≤ cget counts "young")
    (hsingle : (if aget pa "young" = true ∧ cget counts "young" < ymin then (1 : Int) else 0) +
      (if aget pa "well_dressed" = true ∧ cget counts "well_dressed" < wmin then 1 else 0) = 1)
    (hrej : PlayGame.decide_core pa counts a1 ymin wmin = false) :
    PlayGame.decide_core pa counts a2 ymin wmin = false := by
  have hf : (a1 : Rat) / ((PlayGame.MAX_VENUE_CAPACITY : Int) : Rat) ≤
      (a2 : Rat) / ((PlayGame.MAX_VENUE_CAPACITY : Int) : Rat) := by
    have h' : (a1 : Rat) ≤ (a2 : Rat) := by exact_mod_cast h12
    have hc : (0 : Rat) ≤ ((PlayGame.MAX_VENUE_CAPACITY : Int) : Rat) := by
      norm_num [PlayGame.MAX_VENUE_CAPACITY]
    exact div_le_div_of_nonneg_right h' hc
  simp only [PlayGame.decide_core] at hrej ⊢
  by_cases c1 : aget pa "young" = true ∧ aget pa "well_dressed" = true
  · rw [if_pos c1] at hrej
    exact absurd hrej (by simp)
  · rw [if_neg c1] at hrej ⊢
    by_cases c2 : ¬ aget pa "young" = true ∧ ¬ aget pa "well_dressed" = true
    · rw [if_pos c2]
    · rw [if_neg c2] at hrej ⊢
      by_cases c3 : ¬ aget pa "young" = true ∧ aget pa "well_dressed" = true
      · rw [if_pos c3] at hrej ⊢
        have hwlt : cget counts "well_dressed" < wmin := by
          by_contra hcon
          rw [if_neg (fun hc0 => c3.1 hc0.1), if_neg (fun hc0 => hcon hc0.2)] at hsingle
          norm_num at hsingle
        rw [if_neg (show ¬ cget counts "well_dressed" ≥ wmin from not_le.mpr hwlt)] at hrej ⊢
        split_ifs at hrej ⊢ <;> first
          | rfl
          | exact Bool.noConfusion hrej
          | (exfalso; linarith)
      · rw [if_neg c3] at hrej ⊢
        by_cases c4 : aget pa "young" = true
        · rw [if_pos c4] at hrej ⊢
          have hylt : cget counts "young" < ymin := by
            by_contra hcon
            have hwflag : ¬ aget pa "well_dressed" = true := fun hw => c1 ⟨c4, hw⟩
            rw [if_neg (fun hc0 => hcon hc0.2), if_neg (fun hc0 => hwflag hc0.1)] at hsingle
            norm_num at hsingle
          have hym : (0 : Int) < ymin := by omega
          have hp1 : progressOf (cget counts "young") ymin < 1 := by
            unfold progressOf
            rw [if_pos hym, div_lt_one (by exact_mod_cast hym)]
            exact_mod_cast hylt
          rw [if_neg (show ¬ cget counts "young" ≥ ymin from not_le.mpr hylt)] at hrej ⊢
          split_ifs at hrej ⊢ <;> first
            | rfl
            | exact Bool.noConfusion hrej
            | (exfalso; linarith)
        · rw [if_neg c4]

/-- C5 (amended): for a single-need non-critical candidate the accept/reject
    outcome never flips back to accept as the venue fills, with one proviso:
    in scenario 3 this holds as long as the larger admitted count is still
    below the late-game threshold (fill < 0.97); at or past that threshold a
    late-game rescue rule can regain an accept. The root scenario needs no
    proviso. -/
theorem c5_phase_monotone :
    (∀ (pa : AttrMap) (cs : List Constraint) (counts : CountMap) (t1 t2 : Int)
       (stats : Option AttributeStatistics) (a1 a2 : Int),
       a1 < a2 → a2 < PlayGame.MAX_VENUE_CAPACITY →
       0 ≤ cget counts "young" →
       ((if aget pa "young" = true ∧ cget counts "young" < cminGet cs "young" 600
           then (1 : Int) else 0) +
        (if aget pa "well_dressed" = true ∧
            cget counts "well_dressed" < cminGet cs "well_dressed" 600 then 1 else 0) = 1) →
       PlayGame.should_accept_person pa cs a1 counts t1 stats = false →
       PlayGame.should_accept_person pa cs a2 counts t2 stats = false) ∧
    (∀ (pa : AttrMap) (cs : List Constraint) (counts : CountMap) (t1 t2 : Int)
       (stats : Option AttributeStatistics) (e1 e2 : Int) (a1 a2 : Int),
       a1 < a2 →
       Scenario3.venue_fill (Scenario3.mkCtx pa cs a2 counts) < Scenario3.VENUE_FILL_LATE →
       Scenario3.needed_attributes (Scenario3.mkCtx pa cs a2 counts) = 1 →
       Scenario3.critical_attributes (Scenario3.mkCtx pa cs a2 counts) = 0 →
       Scenario3.should_accept_person pa cs a1 counts t1 stats e1 = false →
       Scenario3.should_accept_person pa cs a2 counts t2 stats e2 = false) := by
  constructor
  · intro pa cs counts t1 t2 stats a1 a2 h12 hcap hy0 hsingle hrej
    have hcap1 : ¬ a1 ≥ PlayGame.MAX_VENUE_CAPACITY := by omega
    have hcap2 : ¬ a2 ≥ PlayGame.MAX_VENUE_CAPACITY := by omega
    rw [s1_decide_eq pa cs a1 counts t1 stats hcap1] at hrej
    rw [s1_decide_eq pa cs a2 counts t2 stats hcap2]
    exact s1_core_mono pa counts _ _ a1 a2 (le_of_lt h12) hy0 hsingle hrej
  · intro pa cs counts t1 t2 stats e1 e2 a1 a2 h12 hlate hneed hcrit hrej
    have hcap2 : a2 < Scenario3.MAX_VENUE_CAPACITY := by
      by_contra hcon
      push_neg at hcon
      have h1 : ((Scenario3.MAX_VENUE_CAPACITY : Int) : Rat) ≤ (a2 : Rat) := by exact_mod_cast hcon
      have h2 : (a2 : Rat) / ((Scenario3.MAX_VENUE_CAPACITY : Int) : Rat) <
          Scenario3.VENUE_FILL_LATE := hlate
      have hc : (0 : Rat) < ((Scenario3.MAX_VENUE_CAPACITY : Int) : Rat) := by
        norm_num [Scenario3.MAX_VENUE_CAPACITY]
      have h3 : (1 : Rat) ≤ (a2 : Rat) / ((Scenario3.MAX_VENUE_CAPACITY : Int) : Rat) := by
        rw [le_div_iff₀ hc]
        linarith
      have h4 : Scenario3.VENUE_FILL_LATE < 1 := by norm_num [Scenario3.VENUE_FILL_LATE]
      linarith
    have hcap1 : ¬ a1 ≥ Scenario3.MAX_VENUE_CAPACITY := by omega
    rw [s3_decide_eq pa cs a1 counts t1 stats e1 hcap1] at hrej
    rw [s3_decide_eq pa cs a2 counts t2 stats e2 (by omega)]
    by_contra hacc
    rw [Bool.not_eq_false] at hacc
    have hmono := s3_hard_rules_mono (Scenario3.mkCtx pa cs a2 counts) a1 a2 (le_of_lt h12)
      hlate hacc
    rw [show Scenario3.withAdmitted (Scenario3.mkCtx pa cs a2 counts) a1 =
        Scenario3.mkCtx pa cs a1 counts from rfl] at hmono
    rw [hmono] at hrej
    exact absurd hrej (by simp)

/-- C5 witness: a well_dressed-only candidate rejected at 820 stays rejected
    at 900, and scenario 3's single-need german candidate rejected at 905
    stays rejected at 950 (fill below the late threshold). -/
theorem c5_phase_monotone_witness :
    PlayGame.should_accept_person [("well_dressed", true)] [] 900 [("well_dressed", 522)]
        0 none = false ∧
    Scenario3.should_accept_person [("german_speaker", true)] [] 950
        [("underground_veteran", 399), ("international", 650), ("fashion_forward", 550),
         ("queer_friendly", 250), ("vinyl_collector", 200), ("german_speaker", 790)]
        0 none 0 = false :=
  ⟨c5_phase_monotone.1 _ _ _ 0 0 _ 820 900 (by norm_num)
      (by norm_num [PlayGame.MAX_VENUE_CAPACITY]) (by with_unfolding_all decide)
      (by with_unfolding_all decide) (by with_unfolding_all decide),
   c5_phase_monotone.2 _ _ _ 0 0 _ 0 0 905 950 (by norm_num)
      (by with_unfolding_all decide) (by with_unfolding_all decide)
      (by with_unfolding_all decide) (by with_unfolding_all decide)⟩

/-- C5 counterexample: in scenario 3, a candidate with exactly one needed,
    non-critical attribute (german_speaker, deficit 10) is rejected at
    admitted 950 but accepted again at admitted 980 (fill past 0.97), because
    another attribute's large deficit triggers the late-game rescue rule; so
    the outcome is not monotone in the fill ratio. -/
theorem c5_counterexample :
    Scenario3.needed_attributes (Scenario3.mkCtx [("german_speaker", true)] []
        980 [("underground_veteran", 399), ("international", 650), ("fashion_forward", 550),
         ("queer_friendly", 250), ("vinyl_collector", 200), ("german_speaker", 790)]) = 1 ∧
    Scenario3.critical_attributes (Scenario3.mkCtx [("german_speaker", true)] []
        980 [("underground_veteran", 399), ("international", 650), ("fashion_forward", 550),
         ("queer_friendly", 250), ("vinyl_collector", 200), ("german_speaker", 790)]) = 0 ∧
    (950 : Int) < 980 ∧ (980 : Int) < Scenario3.MAX_VENUE_CAPACITY ∧
    Scenario3.should_accept_person [("german_speaker", true)] [] 950
        [("underground_veteran", 399), ("international", 650), ("fashion_forward", 550),
         ("queer_friendly", 250), ("vinyl_collector", 200), ("german_speaker", 790)]
        0 none 0 = false ∧
    Scenario3.should_accept_person [("german_speaker", true)] [] 980
        [("underground_veteran", 399), ("international", 650), ("fashion_forward", 550),
         ("queer_friendly", 250), ("vinyl_collector", 200), ("german_speaker", 790)]
        0 none 0 = true := by
  with_unfolding_all decide
